import Mathlib

/-! Configuration validation of the Cloudflare log receiver.

A shallow embedding of `receiver/cloudflarereceiver/config.go`: the configuration
types, the package-level error values and `Config.Validate`, together with the
library functions `Validate` calls (`net.SplitHostPort`, `multierr.Append`,
`fmt.Errorf`, `errors.New`).

Conventions.
* A Go `string` is a Lean `String` and positions count characters. The code
  compares bytes only with the ASCII delimiters `:`, `[` and `]`, which never occur
  inside a multi-byte UTF-8 sequence, so every test and every cut falls on a
  character boundary.
* A Go `int` is an `Int`; the sentinel `-1` of the index functions is kept.
* A Go `error` interface value is an `Option GoError`, `none` being `nil`.
* A computation that may panic at run time (nil dereference, index or slice out of
  range) returns `Except Panic`.
* `%q` formatting (`strconv.Quote`) depends on Unicode tables that are not part of
  the repository; the quoting function is a parameter `quote` of `Validate`.
-/

namespace Cloudflarereceiver

/-! ## Run-time model -/

/-- Run-time panics the embedded code could raise. -/
inductive Panic where
  | nilDereference
  | indexOutOfRange
  | sliceBoundsOutOfRange
  deriving DecidableEq, Repr

deriving instance DecidableEq for Except

/-- Go `len(s)` as an `int`. -/
def len (s : String) : Int := (s.data.length : Int)

/-- Go `s[i]`: panics when `i` is outside `0 ≤ i < len(s)`. -/
def index (s : String) (i : Int) : Except Panic Char :=
  if i < 0 then .error .indexOutOfRange
  else
    match s.data[i.toNat]? with
    | some c => .ok c
    | none => .error .indexOutOfRange

/-- Go `s[lo:hi]`: panics unless `0 ≤ lo ≤ hi ≤ len(s)`. -/
def slice (s : String) (lo hi : Int) : Except Panic String :=
  if 0 ≤ lo ∧ lo ≤ hi ∧ hi ≤ len s then
    .ok ⟨(s.data.drop lo.toNat).take (hi.toNat - lo.toNat)⟩
  else .error .sliceBoundsOutOfRange

/-- Go `*p` on a pointer that may be nil. -/
def deref {α : Type} : Option α → Except Panic α
  | some a => .ok a
  | none => .error .nilDereference

/-- Loop of `IndexByteString`: scan forward from position `i`. -/
def indexByteLoop (c : Char) : List Char → Int → Int
  | [], _ => -1
  | x :: xs, i => if x = c then i else indexByteLoop c xs (i + 1)

/-- Library `bytealg.IndexByteString`: index of the first `c` in `s`, or `-1`. -/
def IndexByteString (s : String) (c : Char) : Int :=
  indexByteLoop c s.data 0

/-- Loop of `LastIndexByteString`: `for i := n - 1; i >= 0; i--`, the argument
being `i + 1`. -/
def lastIndexByteLoop (c : Char) (s : List Char) : Nat → Int
  | 0 => -1
  | i + 1 => if s[i]? = some c then (i : Int) else lastIndexByteLoop c s i

/-- Library `bytealg.LastIndexByteString`: index of the last `c` in `s`, or `-1`. -/
def LastIndexByteString (s : String) (c : Char) : Int :=
  lastIndexByteLoop c s.data s.data.length

/-! ## Error values -/

/-- The concrete error types that reach `Validate`:
`*errors.errorString`, `*net.AddrError`, `*fmt.wrapError`, `*multierr.multiError`. -/
inductive GoError where
  | errorString (s : String)
  | addrError (Err : String) (Addr : String)
  | wrapError (msg : String) (err : GoError)
  | multiError (errors : List GoError)

namespace GoError

mutual
/-- Decidable equality of error values. -/
def decEq : (a b : GoError) → Decidable (a = b)
  | errorString s, errorString t =>
    if h : s = t then isTrue (by rw [h]) else isFalse (fun h' => h (by cases h'; rfl))
  | addrError e a, addrError e' a' =>
    if h : e = e' ∧ a = a' then isTrue (by rw [h.1, h.2])
    else isFalse (fun h' => h (by cases h'; exact ⟨rfl, rfl⟩))
  | wrapError m u, wrapError m' u' =>
    if h : m = m' then
      match decEq u u' with
      | isTrue hu => isTrue (by rw [h, hu])
      | isFalse hu => isFalse (fun h' => hu (by cases h'; rfl))
    else isFalse (fun h' => h (by cases h'; rfl))
  | multiError l, multiError l' =>
    match decEqList l l' with
    | isTrue hl => isTrue (by rw [hl])
    | isFalse hl => isFalse (fun h' => hl (by cases h'; rfl))
  | errorString _, addrError _ _ => isFalse (fun h => by cases h)
  | errorString _, wrapError _ _ => isFalse (fun h => by cases h)
  | errorString _, multiError _ => isFalse (fun h => by cases h)
  | addrError _ _, errorString _ => isFalse (fun h => by cases h)
  | addrError _ _, wrapError _ _ => isFalse (fun h => by cases h)
  | addrError _ _, multiError _ => isFalse (fun h => by cases h)
  | wrapError _ _, errorString _ => isFalse (fun h => by cases h)
  | wrapError _ _, addrError _ _ => isFalse (fun h => by cases h)
  | wrapError _ _, multiError _ => isFalse (fun h => by cases h)
  | multiError _, errorString _ => isFalse (fun h => by cases h)
  | multiError _, addrError _ _ => isFalse (fun h => by cases h)
  | multiError _, wrapError _ _ => isFalse (fun h => by cases h)
/-- Decidable equality of lists of error values. -/
def decEqList : (as bs : List GoError) → Decidable (as = bs)
  | [], [] => isTrue rfl
  | [], _ :: _ => isFalse (fun h => by cases h)
  | _ :: _, [] => isFalse (fun h => by cases h)
  | a :: as, b :: bs =>
    match decEq a b with
    | isTrue h =>
      match decEqList as bs with
      | isTrue hs => isTrue (by rw [h, hs])
      | isFalse hs => isFalse (fun h' => hs (by cases h'; rfl))
    | isFalse h => isFalse (fun h' => h (by cases h'; rfl))
end

instance : DecidableEq GoError := decEq

mutual
/-- The `Error()` method: `errorString` and `wrapError` return their stored text,
`AddrError` prepends `address <Addr>: ` when `Addr` is non-empty, and a
`multiError` joins its members with `; `. -/
def Error : GoError → String
  | errorString s => s
  | addrError e a => if a ≠ "" then "address " ++ a ++ ": " ++ e else e
  | wrapError msg _ => msg
  | multiError errs => ErrorList errs
/-- Single-line rendering of the members of a `multiError`. -/
def ErrorList : List GoError → String
  | [] => ""
  | [e] => Error e
  | e :: es => Error e ++ "; " ++ ErrorList es
end

/-- Library `errors.Unwrap`: the wrapped error of a `wrapError`, otherwise nil. -/
def Unwrap : GoError → Option GoError
  | wrapError _ err => some err
  | _ => none

end GoError

open GoError

/-- Library `errors.New`. -/
def errorsNew (text : String) : GoError := errorString text

/-- Library `multierr.Errors`: the errors an error value is made of; nil gives the
empty list, a `multiError` its members, any other error itself. -/
def Errors : Option GoError → List GoError
  | none => []
  | some (multiError errs) => errs
  | some e => [e]

/-- Library `multierr.Append`: nil on either side returns the other side; otherwise
the result is a `multiError` holding the flattened members of both sides. -/
def Append (left right : Option GoError) : Option GoError :=
  match left, right with
  | none, _ => right
  | _, none => left
  | some l, some r => some (multiError (Errors (some l) ++ Errors (some r)))

/-- The statements of `net.SplitHostPort` after its bracket `if`/`else`: reject a
stray `[` in `hostport[j:]` and a stray `]` in `hostport[k:]`, then cut the port
`hostport[i+1:]`. -/
def splitHostPortRest (hostport : String) (i : Int) (host : String) (j k : Int) :
    Except Panic (String × String × Option GoError) :=
  match slice hostport j (len hostport) with
  | .error p => .error p
  | .ok sj =>
    if IndexByteString sj '[' ≥ 0 then
      .ok ("", "", some (addrError "unexpected '[' in address" hostport))
    else
      match slice hostport k (len hostport) with
      | .error p => .error p
      | .ok sk =>
        if IndexByteString sk ']' ≥ 0 then
          .ok ("", "", some (addrError "unexpected ']' in address" hostport))
        else
          match slice hostport (i + 1) (len hostport) with
          | .error p => .error p
          | .ok port => .ok (host, port, none)

/-- Library `net.SplitHostPort` (Go standard library, `net/ipsock.go`), returning
`(host, port, err)`; every failure is an `AddrError` carrying the whole input as
its `Addr`. -/
def SplitHostPort (hostport : String) : Except Panic (String × String × Option GoError) :=
  let missingPort := "missing port in address"
  let tooManyColons := "too many colons in address"
  -- The port starts after the last colon.
  let i := LastIndexByteString hostport ':'
  if i < 0 then
    .ok ("", "", some (addrError missingPort hostport))
  else
    match index hostport 0 with
    | .error p => .error p
    | .ok c0 =>
      if c0 = '[' then
        -- Expect the first ']' just before the last ':'.
        let end_ := IndexByteString hostport ']'
        if end_ < 0 then
          .ok ("", "", some (addrError "missing ']' in address" hostport))
        else if end_ + 1 = len hostport then
          -- There can't be a ':' behind the ']' now.
          .ok ("", "", some (addrError missingPort hostport))
        else if end_ + 1 = i then
          -- The expected result.
          match slice hostport 1 end_ with
          | .error p => .error p
          | .ok host => splitHostPortRest hostport i host 1 (end_ + 1)
        else
          -- Either ']' isn't followed by a colon, or it is
          -- followed by a colon that is not the last one.
          match index hostport (end_ + 1) with
          | .error p => .error p
          | .ok c =>
            if c = ':' then
              .ok ("", "", some (addrError tooManyColons hostport))
            else
              .ok ("", "", some (addrError missingPort hostport))
      else
        match slice hostport 0 i with
        | .error p => .error p
        | .ok host =>
          if IndexByteString host ':' ≥ 0 then
            .ok ("", "", some (addrError tooManyColons hostport))
          else
            splitHostPortRest hostport i host 0 0

/-- Library `fmt.Errorf` with a format `<before>%q<after>` and one string operand:
an `errorString` whose text has the operand quoted by `quote` (`strconv.Quote`). -/
def Errorf_q (quote : String → String) (before after : String) (a : String) : GoError :=
  errorsNew (before ++ quote a ++ after)

/-- Library `fmt.Errorf` with a format `<before>%w` and one error operand: a
`wrapError` whose text ends in the operand's message and which unwraps to it. -/
def Errorf_w (before : String) (err : GoError) : GoError :=
  wrapError (before ++ err.Error) err

/-! ## The configuration model (`config.go`, lines 15-44) -/

/-- Library type `configtls.ServerConfig`: the certificate and key file references
read by `Validate`, and the other file and version settings of the TLS block. -/
structure ServerConfig where
  CAFile : String
  CertFile : String
  KeyFile : String
  MinVersion : String
  MaxVersion : String
  ClientCAFile : String
  ReloadClientCAFile : Bool
  deriving DecidableEq, Repr

/-- Source type `LogsConfig`. `TLS` is a pointer (`none` is nil); `Attributes` is a
`map[string]string`, kept as its list of entries. -/
structure LogsConfig where
  Secret : String
  Endpoint : String
  TLS : Option ServerConfig
  Attributes : List (String × String)
  TimestampField : String
  TimestampFormat : String
  Separator : String
  deriving DecidableEq, Repr

/-- Source type `Config`. -/
structure Config where
  Logs : LogsConfig
  deriving DecidableEq, Repr

/-- Source value `errNoEndpoint`. -/
def errNoEndpoint : GoError := errorsNew "an endpoint must be specified"

/-- Source value `errNoCert`. -/
def errNoCert : GoError := errorsNew "tls was configured, but no cert file was specified"

/-- Source value `errNoKey`. -/
def errNoKey : GoError := errorsNew "tls was configured, but no key file was specified"

/-- Source value `defaultTimestampField`. -/
def defaultTimestampField : String := "EdgeStartTimestamp"

/-- Source value `defaultTimestampFormat`. -/
def defaultTimestampFormat : String := "rfc3339"

/-- Source value `defaultSeparator`. -/
def defaultSeparator : String := "."

/-! ## `Config.Validate` (`config.go`, lines 46-79) -/

/-- Source method `(*Config).Validate`. The result is the returned `error`
(`none` is nil, success); `quote` stands for `%q`. The variable `errs` of the
source is threaded through the timestamp block, the tls block (`afterTLS`) and the
endpoint split. -/
def Validate (quote : String → String) (c : Config) : Except Panic (Option GoError) :=
  if c.Logs.Endpoint = "" then
    .ok (some errNoEndpoint)
  else
    let errs : Option GoError := none
    -- Validate timestamp_format if provided
    let errs :=
      if c.Logs.TimestampFormat ≠ "" then
        if c.Logs.TimestampFormat = "unix" ∨ c.Logs.TimestampFormat = "unixnano"
            ∨ c.Logs.TimestampFormat = "rfc3339" then
          errs
        else
          Append errs (some (Errorf_q quote "invalid timestamp_format "
            ", must be one of: unix, unixnano, rfc3339" c.Logs.TimestampFormat))
      else errs
    let afterTLS : Except Panic (Option GoError) :=
      if c.Logs.TLS ≠ none then
        -- Missing key
        match deref c.Logs.TLS with
        | .error p => .error p
        | .ok tls =>
          let errs := if tls.KeyFile = "" then Append errs (some errNoKey) else errs
          -- Missing cert
          match deref c.Logs.TLS with
          | .error p => .error p
          | .ok tls =>
            .ok (if tls.CertFile = "" then Append errs (some errNoCert) else errs)
      else .ok errs
    match afterTLS with
    | .error p => .error p
    | .ok errs =>
      match SplitHostPort c.Logs.Endpoint with
      | .error p => .error p
      | .ok (_, _, err) =>
        match err with
        | some e =>
          .ok (Append errs (some (Errorf_w "failed to split endpoint into 'host:port' pair: " e)))
        | none => .ok errs

/-- The ordered problem list of a validation outcome: the members of the returned
error (`multierr.Errors`). -/
def problems (quote : String → String) (c : Config) : Except Panic (List GoError) :=
  match Validate quote c with
  | .error p => .error p
  | .ok r => .ok (Errors r)

/-- A quoting function for evaluating `Validate` on concrete inputs: it wraps the
text in double quotes, as `strconv.Quote` does for printable ASCII text without a
double quote or a backslash. -/
def quotePlain (s : String) : String := "\"" ++ s ++ "\""

/-- The Go zero value of `configtls.ServerConfig`, as a tls block with no field
set. -/
def zeroServerConfig : ServerConfig :=
  { CAFile := "", CertFile := "", KeyFile := "", MinVersion := "", MaxVersion := "",
    ClientCAFile := "", ReloadClientCAFile := false }

/-- The Go zero value of `LogsConfig`: every string empty, `TLS` nil, no
attributes. -/
def zeroLogsConfig : LogsConfig :=
  { Secret := "", Endpoint := "", TLS := none, Attributes := [], TimestampField := "",
    TimestampFormat := "", Separator := "" }

/-- Scenario A: endpoint `0.0.0.0:4318`, no tls, empty timestamp format. -/
def scenarioA : Config :=
  { Logs := { zeroLogsConfig with Endpoint := "0.0.0.0:4318" } }

/-- Scenario C: endpoint `localhost:4318`, tls with empty cert and key files. -/
def scenarioC : Config :=
  { Logs := { zeroLogsConfig with Endpoint := "localhost:4318", TLS := some zeroServerConfig } }

/-- Scenario D: endpoint `badaddr`, timestamp format `iso8601`, no tls. -/
def scenarioD : Config :=
  { Logs := { zeroLogsConfig with Endpoint := "badaddr", TimestampFormat := "iso8601" } }

/-- Scenario E: endpoint `[::1]:9000`, timestamp format `rfc3339`, no tls. -/
def scenarioE : Config :=
  { Logs := { zeroLogsConfig with Endpoint := "[::1]:9000", TimestampFormat := "rfc3339" } }

/-! ## The checks as the specification lists them

Each check of the specification's section 4.2 as the list of problems it records,
for comparison with what `Validate` returns. -/

/-- Specification check 2 (timestamp format): one problem when `timestamp_format`
is non-empty and outside the enumeration. -/
def specTimestampFormat (quote : String → String) (c : Config) : List GoError :=
  if c.Logs.TimestampFormat ≠ "" ∧ c.Logs.TimestampFormat ∉ ["unix", "unixnano", "rfc3339"] then
    [errorString ("invalid timestamp_format " ++ quote c.Logs.TimestampFormat
      ++ ", must be one of: unix, unixnano, rfc3339")]
  else []

/-- Specification check 3a (TLS key file): one problem when `tls` is present with
an empty key-file reference. -/
def specTLSKey (c : Config) : List GoError :=
  match c.Logs.TLS with
  | some tls => if tls.KeyFile = "" then [errNoKey] else []
  | none => []

/-- Specification check 3b (TLS cert file): one problem when `tls` is present with
an empty cert-file reference. -/
def specTLSCert (c : Config) : List GoError :=
  match c.Logs.TLS with
  | some tls => if tls.CertFile = "" then [errNoCert] else []
  | none => []

/-- Specification check 4 (endpoint split): one problem, wrapping the failure of
the host and port split, when the split fails. -/
def specEndpointSplit (c : Config) : List GoError :=
  match SplitHostPort c.Logs.Endpoint with
  | .ok (_, _, some u) =>
    [wrapError ("failed to split endpoint into 'host:port' pair: " ++ u.Error) u]
  | _ => []

/-- Specification checks 2 to 4 in their fixed order. -/
def specProblems (quote : String → String) (c : Config) : List GoError :=
  specTimestampFormat quote c ++ specTLSKey c ++ specTLSCert c ++ specEndpointSplit c

/-- Scenario B: empty endpoint, no tls. -/
def scenarioB : Config :=
  { Logs := zeroLogsConfig }

/-- An empty endpoint together with an unknown timestamp format and a tls block
whose key and cert file references are both empty. -/
def emptyEndpointAllWrong : Config :=
  { Logs := { zeroLogsConfig with TLS := some zeroServerConfig, TimestampFormat := "iso8601" } }

/-- An empty endpoint with a tls block whose key and cert file references are both
empty; the timestamp format is left empty. -/
def emptyEndpointEmptyTLS : Config :=
  { Logs := { zeroLogsConfig with TLS := some zeroServerConfig } }

/-- An empty endpoint with the unknown timestamp format `iso8601` and no tls. -/
def emptyEndpointBadFormat : Config :=
  { Logs := { zeroLogsConfig with TimestampFormat := "iso8601" } }

/-- A valid endpoint with the timestamp format `RFC3339`, which differs from the
accepted `rfc3339` in case only. -/
def upperCaseFormat : Config :=
  { Logs := { zeroLogsConfig with Endpoint := "localhost:4318", TimestampFormat := "RFC3339" } }

/-- A TLS-related problem: the missing-key or the missing-cert error. -/
def isTLSProblem (e : GoError) : Bool :=
  decide (e = errNoKey) || decide (e = errNoCert)

/-- An invalid-timestamp-format problem: an error whose message starts with
`invalid timestamp_format `. -/
def isTimestampFormatProblem (e : GoError) : Bool :=
  "invalid timestamp_format ".data.isPrefixOf e.Error.data

/-- An endpoint-split problem: an error whose message starts with
`failed to split endpoint into 'host:port' pair`. -/
def isEndpointSplitProblem (e : GoError) : Bool :=
  "failed to split endpoint into 'host:port' pair".data.isPrefixOf e.Error.data

/-- A tls block with a key file, no cert file, and a CA file and version bounds. -/
def tlsLeft : ServerConfig :=
  { zeroServerConfig with
    CAFile := "ca.pem", KeyFile := "key.pem", MinVersion := "1.2", MaxVersion := "1.3" }

/-- A tls block with the same key and cert files as `tlsLeft` and otherwise
different settings. -/
def tlsRight : ServerConfig :=
  { zeroServerConfig with
    KeyFile := "key.pem", ClientCAFile := "clients.pem", ReloadClientCAFile := true }

/-- Two configurations that agree on the endpoint, the timestamp format and the
tls block's key and cert files, and differ in every other field. -/
def sameCheckedFieldsLeft : Config :=
  { Logs :=
    { Secret := "s3cret", Endpoint := "badaddr", TLS := some tlsLeft,
      Attributes := [("ClientIP", "http.client_ip")], TimestampField := "EdgeEndTimestamp",
      TimestampFormat := "iso8601", Separator := "_" } }

/-- The second configuration of the pair. -/
def sameCheckedFieldsRight : Config :=
  { Logs :=
    { zeroLogsConfig with
      Endpoint := "badaddr", TLS := some tlsRight, TimestampFormat := "iso8601" } }

/-- The configuration with only the endpoint set, as in the Go literal
`Config{Logs: LogsConfig{Endpoint: endpoint}}`. -/
def withEndpoint (endpoint : String) : Config :=
  { Logs := { zeroLogsConfig with Endpoint := endpoint } }

/-- The configuration `c` with its timestamp format replaced by `format`. -/
def withTimestampFormat (c : Config) (format : String) : Config :=
  { Logs := { c.Logs with TimestampFormat := format } }

/-- Endpoint `badaddr`, timestamp format `iso8601` and a tls block with neither a
key file nor a cert file: all four checks are triggered. -/
def allChecksTriggered : Config :=
  { Logs := { zeroLogsConfig with
      Endpoint := "badaddr", TLS := some zeroServerConfig, TimestampFormat := "iso8601" } }

end Cloudflarereceiver

namespace Cloudflarereceiver

open GoError

/-! ## Indexing and slicing never fail inside their bounds -/

theorem index_ok (s : String) (i : Int) (h0 : 0 ≤ i) (h1 : i < len s) :
    ∃ c, index s i = .ok c ∧ s.data[i.toNat]? = some c := by
  have hlt : i.toNat < s.data.length := by
    unfold len at h1
    omega
  refine ⟨s.data[i.toNat], ?_, List.getElem?_eq_getElem hlt⟩
  unfold index
  rw [if_neg (by omega), List.getElem?_eq_getElem hlt]

theorem slice_ok (s : String) (lo hi : Int) (h0 : 0 ≤ lo) (h1 : lo ≤ hi) (h2 : hi ≤ len s) :
    slice s lo hi = .ok ⟨(s.data.drop lo.toNat).take (hi.toNat - lo.toNat)⟩ := by
  unfold slice
  rw [if_pos ⟨h0, h1, h2⟩]

theorem indexByteLoop_spec (c : Char) (l : List Char) (k : Int) :
    indexByteLoop c l k = -1 ∨
      (k ≤ indexByteLoop c l k ∧ indexByteLoop c l k < k + l.length ∧
        l[(indexByteLoop c l k - k).toNat]? = some c) := by
  induction l generalizing k with
  | nil => left; rfl
  | cons x xs ih =>
    unfold indexByteLoop
    by_cases hx : x = c
    · right
      simp [hx]
    · rw [if_neg hx]
      rcases ih (k + 1) with h | ⟨h1, h2, h3⟩
      · left; exact h
      · right
        refine ⟨by omega, by simp only [List.length_cons]; push_cast; omega, ?_⟩
        have : (indexByteLoop c xs (k + 1) - k).toNat
            = (indexByteLoop c xs (k + 1) - (k + 1)).toNat + 1 := by omega
        rw [this, List.getElem?_cons_succ]
        exact h3

theorem IndexByteString_spec (s : String) (c : Char) :
    IndexByteString s c = -1 ∨
      (0 ≤ IndexByteString s c ∧ IndexByteString s c < len s ∧
        s.data[(IndexByteString s c).toNat]? = some c) := by
  unfold IndexByteString len
  rcases indexByteLoop_spec c s.data 0 with h | ⟨h1, h2, h3⟩
  · left; exact h
  · right
    refine ⟨h1, by omega, ?_⟩
    simpa using h3

theorem lastIndexByteLoop_spec (c : Char) (l : List Char) (n : Nat) :
    lastIndexByteLoop c l n = -1 ∨
      (0 ≤ lastIndexByteLoop c l n ∧ lastIndexByteLoop c l n < n ∧
        l[(lastIndexByteLoop c l n).toNat]? = some c) := by
  induction n with
  | zero => left; rfl
  | succ i ih =>
    unfold lastIndexByteLoop
    by_cases hx : l[i]? = some c
    · right
      rw [if_pos hx]
      refine ⟨by omega, by push_cast; omega, ?_⟩
      simpa using hx
    · rw [if_neg hx]
      rcases ih with h | ⟨h1, h2, h3⟩
      · left; exact h
      · right
        exact ⟨h1, by push_cast; omega, h3⟩

theorem LastIndexByteString_spec (s : String) (c : Char) :
    LastIndexByteString s c = -1 ∨
      (0 ≤ LastIndexByteString s c ∧ LastIndexByteString s c < len s ∧
        s.data[(LastIndexByteString s c).toNat]? = some c) := by
  unfold LastIndexByteString len
  exact lastIndexByteLoop_spec c s.data s.data.length

/-! ## `net.SplitHostPort` always returns -/

theorem splitHostPortRest_ok (hostport host : String) (i j k : Int)
    (hj0 : 0 ≤ j) (hj : j ≤ len hostport) (hk0 : 0 ≤ k) (hk : k ≤ len hostport)
    (hi0 : 0 ≤ i) (hi : i < len hostport) :
    (∃ port, splitHostPortRest hostport i host j k = .ok (host, port, none)) ∨
      (∃ why, splitHostPortRest hostport i host j k
        = .ok ("", "", some (addrError why hostport))) := by
  unfold splitHostPortRest
  rw [slice_ok _ _ _ hj0 hj le_rfl]
  simp only
  split
  · right; exact ⟨_, rfl⟩
  · rw [slice_ok _ _ _ hk0 hk le_rfl]
    simp only
    split
    · right; exact ⟨_, rfl⟩
    · rw [slice_ok _ _ _ (by omega) (by omega) le_rfl]
      left; exact ⟨_, rfl⟩

/-- Either the split succeeds with a nil error, or it fails with an `AddrError`
whose `Addr` is the whole input; it never panics. -/
theorem SplitHostPort_spec (hostport : String) :
    (∃ host port, SplitHostPort hostport = .ok (host, port, none)) ∨
      (∃ why, SplitHostPort hostport = .ok ("", "", some (addrError why hostport))) := by
  unfold SplitHostPort
  simp only
  rcases LastIndexByteString_spec hostport ':' with hi | ⟨hi0, hi1, _⟩
  · rw [if_pos (by omega)]; right; exact ⟨_, rfl⟩
  · rw [if_neg (by omega)]
    have hlen : 0 < len hostport := by omega
    obtain ⟨c0, hc0, hget0⟩ := index_ok hostport 0 le_rfl hlen
    rw [hc0]
    simp only
    by_cases hb : c0 = '['
    · rw [if_pos hb]
      rcases IndexByteString_spec hostport ']' with he | ⟨he0, he1, heget⟩
      · rw [if_pos (by omega)]; right; exact ⟨_, rfl⟩
      · rw [if_neg (by omega)]
        by_cases h1 : IndexByteString hostport ']' + 1 = len hostport
        · rw [if_pos h1]; right; exact ⟨_, rfl⟩
        · rw [if_neg h1]
          by_cases h2 : IndexByteString hostport ']' + 1 = LastIndexByteString hostport ':'
          · rw [if_pos h2]
            have hpos : 1 ≤ IndexByteString hostport ']' := by
              by_contra hne
              have hz : IndexByteString hostport ']' = 0 := by omega
              rw [hz] at heget
              rw [heget] at hget0
              rw [hb] at hget0
              exact absurd hget0 (by decide)
            rw [slice_ok hostport 1 _ (by omega) hpos (by omega)]
            simp only
            rcases splitHostPortRest_ok hostport
                ⟨(hostport.data.drop (1 : Int).toNat).take
                  ((IndexByteString hostport ']').toNat - (1 : Int).toNat)⟩
                (LastIndexByteString hostport ':') 1 (IndexByteString hostport ']' + 1)
                (by omega) (by omega) (by omega) (by omega) hi0 hi1 with ⟨p, hp⟩ | ⟨w, hw⟩
            · left; exact ⟨_, p, hp⟩
            · right; exact ⟨w, hw⟩
          · rw [if_neg h2]
            obtain ⟨c, hc, _⟩ := index_ok hostport (IndexByteString hostport ']' + 1)
              (by omega) (by omega)
            rw [hc]
            simp only
            split
            · right; exact ⟨_, rfl⟩
            · right; exact ⟨_, rfl⟩
    · rw [if_neg hb]
      rw [slice_ok hostport 0 _ le_rfl hi0 (by omega)]
      simp only
      split
      · right; exact ⟨_, rfl⟩
      · rcases splitHostPortRest_ok hostport
            ⟨(hostport.data.drop (0 : Int).toNat).take
              ((LastIndexByteString hostport ':').toNat - (0 : Int).toNat)⟩
            (LastIndexByteString hostport ':') 0 0
            le_rfl (by omega) le_rfl (by omega) hi0 hi1 with ⟨p, hp⟩ | ⟨w, hw⟩
        · left; exact ⟨_, p, hp⟩
        · right; exact ⟨w, hw⟩

/-! ## What `Validate` returns -/

theorem Validate_empty (quote : String → String) (c : Config) (h : c.Logs.Endpoint = "") :
    Validate quote c = .ok (some errNoEndpoint) := by
  unfold Validate
  rw [if_pos h]

/-- With a non-empty endpoint `Validate` returns, and the members of the returned
error are the problems of checks 2 to 4 in order; the error is nil exactly when
there is none. -/
theorem Validate_nonempty (quote : String → String) (c : Config)
    (h : c.Logs.Endpoint ≠ "") :
    ∃ r, Validate quote c = .ok r ∧ Errors r = specProblems quote c ∧
      (r = none ↔ specProblems quote c = []) := by
  unfold Validate specProblems specTimestampFormat specTLSKey specTLSCert specEndpointSplit
  rw [if_neg h]
  have hts : (if c.Logs.TimestampFormat ≠ "" then
        if c.Logs.TimestampFormat = "unix" ∨ c.Logs.TimestampFormat = "unixnano"
            ∨ c.Logs.TimestampFormat = "rfc3339" then (none : Option GoError)
        else Append none (some (Errorf_q quote "invalid timestamp_format "
            ", must be one of: unix, unixnano, rfc3339" c.Logs.TimestampFormat))
      else none)
      = if c.Logs.TimestampFormat ≠ "" ∧
            c.Logs.TimestampFormat ∉ ["unix", "unixnano", "rfc3339"] then
          some (errorString ("invalid timestamp_format " ++ quote c.Logs.TimestampFormat
            ++ ", must be one of: unix, unixnano, rfc3339"))
        else none := by
    by_cases h1 : c.Logs.TimestampFormat = ""
    · simp [h1]
    · by_cases h2 : c.Logs.TimestampFormat = "unix" ∨ c.Logs.TimestampFormat = "unixnano"
          ∨ c.Logs.TimestampFormat = "rfc3339"
      · rw [if_pos h1, if_pos h2, if_neg]
        simp only [List.mem_cons, List.mem_singleton, List.not_mem_nil, or_false]
        tauto
      · rw [if_pos h1, if_neg h2, if_pos]
        · rfl
        · simp only [List.mem_cons, List.mem_singleton, List.not_mem_nil, or_false]
          tauto
  simp only [hts]
  rcases SplitHostPort_spec c.Logs.Endpoint with ⟨host, port, hs⟩ | ⟨why, hs⟩ <;>
  rcases hT : c.Logs.TLS with _ | tls <;>
  by_cases hbad : (c.Logs.TimestampFormat ≠ "" ∧
    c.Logs.TimestampFormat ∉ ["unix", "unixnano", "rfc3339"]) <;>
  simp only [hs, hT, hbad, if_true, if_false, deref, ne_eq, not_true_eq_false,
    not_false_eq_true, reduceCtorEq] <;>
  (try (by_cases hk : tls.KeyFile = "" <;> by_cases hc : tls.CertFile = "")) <;>
  simp [*, Append, Errors, Errorf_w, errNoKey, errNoCert, errorsNew]

theorem problems_empty (quote : String → String) (c : Config) (h : c.Logs.Endpoint = "") :
    problems quote c = .ok [errNoEndpoint] := by
  unfold problems
  rw [Validate_empty quote c h]
  rfl

theorem problems_nonempty (quote : String → String) (c : Config)
    (h : c.Logs.Endpoint ≠ "") :
    problems quote c = .ok (specProblems quote c) := by
  obtain ⟨r, hr, he, _⟩ := Validate_nonempty quote c h
  unfold problems
  rw [hr, ← he]

theorem specTimestampFormat_eq_nil (quote : String → String) (c : Config) :
    specTimestampFormat quote c = [] ↔
      (c.Logs.TimestampFormat = "" ∨ c.Logs.TimestampFormat = "unix" ∨
        c.Logs.TimestampFormat = "unixnano" ∨ c.Logs.TimestampFormat = "rfc3339") := by
  unfold specTimestampFormat
  by_cases h1 : c.Logs.TimestampFormat = ""
  · simp [h1]
  · simp only [List.mem_cons, List.mem_singleton, List.not_mem_nil, or_false]
    split_ifs with h2
    · simp only [reduceCtorEq, false_iff]
      tauto
    · simp only [true_iff]
      tauto

theorem specTLS_eq_nil (c : Config) :
    (specTLSKey c = [] ∧ specTLSCert c = []) ↔
      (c.Logs.TLS = none ∨
        ∃ tls, c.Logs.TLS = some tls ∧ tls.KeyFile ≠ "" ∧ tls.CertFile ≠ "") := by
  unfold specTLSKey specTLSCert
  rcases hT : c.Logs.TLS with _ | tls
  · simp
  · by_cases hk : tls.KeyFile = "" <;> by_cases hc : tls.CertFile = "" <;> simp [hk, hc]

theorem specEndpointSplit_eq_nil (c : Config) :
    specEndpointSplit c = [] ↔
      ∃ host port, SplitHostPort c.Logs.Endpoint = .ok (host, port, none) := by
  unfold specEndpointSplit
  rcases SplitHostPort_spec c.Logs.Endpoint with ⟨host, port, hs⟩ | ⟨why, hs⟩
  · rw [hs]
    simp
  · rw [hs]
    simp

/-! ## The claims -/

/-- C1: `Config.Validate` returns a nil error if and only if the endpoint is
non-empty, the timestamp format is empty or one of `unix`, `unixnano`, `rfc3339`,
the TLS block is absent or has both a key file and a cert file, and splitting the
endpoint into host and port succeeds. -/
theorem C1_validate_success_iff (quote : String → String) (c : Config) :
    Validate quote c = .ok none ↔
      (c.Logs.Endpoint ≠ "" ∧
        (c.Logs.TimestampFormat = "" ∨ c.Logs.TimestampFormat = "unix" ∨
          c.Logs.TimestampFormat = "unixnano" ∨ c.Logs.TimestampFormat = "rfc3339") ∧
        (c.Logs.TLS = none ∨
          ∃ tls, c.Logs.TLS = some tls ∧ tls.KeyFile ≠ "" ∧ tls.CertFile ≠ "") ∧
        ∃ host port, SplitHostPort c.Logs.Endpoint = .ok (host, port, none)) := by
  by_cases h : c.Logs.Endpoint = ""
  · rw [Validate_empty quote c h]
    simp [h]
  · obtain ⟨r, hr, _, hnil⟩ := Validate_nonempty quote c h
    rw [hr, ← specTimestampFormat_eq_nil quote c, ← specTLS_eq_nil c,
      ← specEndpointSplit_eq_nil c]
    have : (Except.ok r : Except Panic (Option GoError)) = .ok none ↔ r = none := by
      constructor
      · intro h'; injection h'
      · intro h'; rw [h']
    rw [this, hnil]
    unfold specProblems
    simp only [List.append_eq_nil, ne_eq, h, not_false_eq_true, true_and]
    tauto

/-- C1, scenario A: endpoint `0.0.0.0:4318`, no tls and an empty timestamp format
validate successfully, the four conditions holding there. -/
theorem C1_scenarioA :
    Validate quotePlain scenarioA = .ok none ∧
      SplitHostPort "0.0.0.0:4318" = .ok ("0.0.0.0", "4318", none) :=
  ⟨(C1_validate_success_iff quotePlain scenarioA).mpr
    ⟨by decide, Or.inl rfl, Or.inl rfl, "0.0.0.0", "4318", by decide⟩, by decide⟩

/-- C2, as stated, fails: with an empty endpoint, the unknown timestamp format
`iso8601` and a tls block missing both files, the checks for the timestamp format,
the key file and the cert file are all triggered, yet the only problem returned is
`an endpoint must be specified`. -/
theorem C2_empty_endpoint_short_circuits :
    emptyEndpointAllWrong.Logs.Endpoint = "" ∧
      specTimestampFormat quotePlain emptyEndpointAllWrong =
        [errorString
          "invalid timestamp_format \"iso8601\", must be one of: unix, unixnano, rfc3339"] ∧
      specTLSKey emptyEndpointAllWrong = [errNoKey] ∧
      specTLSCert emptyEndpointAllWrong = [errNoCert] ∧
      problems quotePlain emptyEndpointAllWrong = .ok [errNoEndpoint] ∧
      errorString "invalid timestamp_format \"iso8601\", must be one of: unix, unixnano, rfc3339"
        ∉ [errNoEndpoint] ∧
      errNoKey ∉ [errNoEndpoint] ∧ errNoCert ∉ [errNoEndpoint] := by
  decide

/-- C2, amended: with a non-empty endpoint no check short-circuits the others:
`Validate` returns, and every triggered check (timestamp format, TLS key file, TLS
cert file, endpoint split) has its problem among those returned. With an empty
endpoint the only problem returned is `an endpoint must be specified`. -/
theorem C2_every_triggered_check_contributes (quote : String → String) (c : Config) :
    (c.Logs.Endpoint ≠ "" →
      ∃ ps, problems quote c = .ok ps ∧
        (c.Logs.TimestampFormat ≠ "" →
          c.Logs.TimestampFormat ∉ ["unix", "unixnano", "rfc3339"] →
          errorString ("invalid timestamp_format " ++ quote c.Logs.TimestampFormat
            ++ ", must be one of: unix, unixnano, rfc3339") ∈ ps) ∧
        (∀ tls, c.Logs.TLS = some tls → tls.KeyFile = "" → errNoKey ∈ ps) ∧
        (∀ tls, c.Logs.TLS = some tls → tls.CertFile = "" → errNoCert ∈ ps) ∧
        (∀ host port u, SplitHostPort c.Logs.Endpoint = .ok (host, port, some u) →
          wrapError ("failed to split endpoint into 'host:port' pair: " ++ u.Error) u ∈ ps)) ∧
    (c.Logs.Endpoint = "" → problems quote c = .ok [errNoEndpoint]) := by
  refine ⟨fun h => ⟨specProblems quote c, problems_nonempty quote c h, ?_, ?_, ?_, ?_⟩,
    problems_empty quote c⟩
  · intro h1 h2
    simp [specProblems, specTimestampFormat, h1, h2]
  · intro tls hT hk
    simp [specProblems, specTLSKey, hT, hk]
  · intro tls hT hc
    simp [specProblems, specTLSCert, hT, hc]
  · intro host port u hs
    simp [specProblems, specEndpointSplit, hs]

/-- C2, amended, at two inputs: for endpoint `badaddr` with timestamp format
`iso8601` both triggered checks contribute; for the empty endpoint with everything
else wrong only the endpoint problem is returned. -/
theorem C2_amended_witness :
    (∃ ps, problems quotePlain scenarioD = .ok ps ∧
      errorString "invalid timestamp_format \"iso8601\", must be one of: unix, unixnano, rfc3339"
        ∈ ps ∧
      wrapError ("failed to split endpoint into 'host:port' pair: "
          ++ (addrError "missing port in address" "badaddr").Error)
        (addrError "missing port in address" "badaddr") ∈ ps) ∧
    problems quotePlain emptyEndpointAllWrong = .ok [errNoEndpoint] := by
  obtain ⟨hD, hE⟩ := C2_every_triggered_check_contributes quotePlain scenarioD
  obtain ⟨ps, hps, hts, _, _, hsplit⟩ := hD (by decide)
  exact ⟨⟨ps, hps, hts (by decide) (by decide), hsplit "" "" _ (by decide)⟩,
    (C2_every_triggered_check_contributes quotePlain emptyEndpointAllWrong).2 (by decide)⟩

/-- C3: for every configuration with an empty endpoint `Validate` returns a
failure whose problems include `an endpoint must be specified` exactly once and
include no endpoint-split problem: no returned problem wraps another error or has a
message starting with `failed to split endpoint into 'host:port' pair`. -/
theorem C3_empty_endpoint_single_problem (quote : String → String) (c : Config)
    (h : c.Logs.Endpoint = "") :
    ∃ r ps, Validate quote c = .ok r ∧ r ≠ none ∧ problems quote c = .ok ps ∧
      errNoEndpoint.Error = "an endpoint must be specified" ∧
      ps.count errNoEndpoint = 1 ∧
      ∀ e ∈ ps, e.Unwrap = none ∧ isEndpointSplitProblem e = false := by
  refine ⟨some errNoEndpoint, [errNoEndpoint], Validate_empty quote c h, by simp,
    problems_empty quote c h, by decide, by decide, ?_⟩
  intro e he
  rw [List.mem_singleton] at he
  rw [he]
  decide

/-- C3 at scenario B (empty endpoint, no tls). -/
theorem C3_witness :
    scenarioB.Logs.Endpoint = "" ∧
      ∃ r ps, Validate quotePlain scenarioB = .ok r ∧ r ≠ none ∧
        problems quotePlain scenarioB = .ok ps ∧
        errNoEndpoint.Error = "an endpoint must be specified" ∧
        ps.count errNoEndpoint = 1 ∧
        ∀ e ∈ ps, e.Unwrap = none ∧ isEndpointSplitProblem e = false :=
  ⟨rfl, C3_empty_endpoint_single_problem quotePlain scenarioB rfl⟩

theorem isTLSProblem_specTimestampFormat (quote : String → String) (c : Config) :
    (specTimestampFormat quote c).filter isTLSProblem = [] := by
  unfold specTimestampFormat
  split_ifs
  · have hne : ∀ x : String, errorString ("invalid timestamp_format " ++ x) ≠ errNoKey ∧
        errorString ("invalid timestamp_format " ++ x) ≠ errNoCert := by
      intro x
      constructor <;>
      · intro h
        injection h with h
        have := congrArg (fun s => s.data.head?) h
        simp at this
    simp [isTLSProblem, String.append_assoc, hne]
  · rfl

theorem isTLSProblem_specEndpointSplit (c : Config) :
    (specEndpointSplit c).filter isTLSProblem = [] := by
  unfold specEndpointSplit
  rcases SplitHostPort_spec c.Logs.Endpoint with ⟨host, port, hs⟩ | ⟨why, hs⟩
  · rw [hs]
    rfl
  · rw [hs]
    simp [isTLSProblem, errNoKey, errNoCert, errorsNew]

/-- C4, as stated, fails: with an empty endpoint and a tls block whose key and cert
file references are both empty, the outcome holds no TLS-related problem at all; its
only problem is `an endpoint must be specified`. -/
theorem C4_empty_endpoint_no_tls_problem :
    emptyEndpointEmptyTLS.Logs.Endpoint = "" ∧
      emptyEndpointEmptyTLS.Logs.TLS = some zeroServerConfig ∧
      zeroServerConfig.KeyFile = "" ∧ zeroServerConfig.CertFile = "" ∧
      problems quotePlain emptyEndpointEmptyTLS = .ok [errNoEndpoint] ∧
      [errNoEndpoint].filter isTLSProblem = [] := by
  decide

/-- C4, amended: for every configuration with a non-empty endpoint, tls present and
both its key-file and cert-file references empty, the TLS-related problems of the
outcome are exactly two, the missing-key error followed by the missing-cert error.
For every configuration with an empty endpoint the outcome holds no TLS-related
problem: its only problem is `an endpoint must be specified`. -/
theorem C4_both_tls_problems (quote : String → String) (c : Config) :
    (∀ tls : ServerConfig, c.Logs.Endpoint ≠ "" → c.Logs.TLS = some tls →
      tls.KeyFile = "" → tls.CertFile = "" →
      ∃ ps, problems quote c = .ok ps ∧
        ps.filter isTLSProblem = [errNoKey, errNoCert] ∧
        errNoKey.Error = "tls was configured, but no key file was specified" ∧
        errNoCert.Error = "tls was configured, but no cert file was specified") ∧
    (c.Logs.Endpoint = "" →
      ∃ ps, problems quote c = .ok ps ∧ ps = [errNoEndpoint] ∧
        ps.filter isTLSProblem = [] ∧
        errNoEndpoint.Error = "an endpoint must be specified") := by
  constructor
  · intro tls h hT hk hc
    refine ⟨specProblems quote c, problems_nonempty quote c h, ?_, by decide, by decide⟩
    unfold specProblems
    rw [List.filter_append, List.filter_append, List.filter_append,
      isTLSProblem_specTimestampFormat, isTLSProblem_specEndpointSplit]
    simp only [specTLSKey, specTLSCert, hT, hk, hc, if_true]
    decide
  · intro h
    exact ⟨[errNoEndpoint], problems_empty quote c h, rfl, by decide, by decide⟩

/-- C4, amended, at two inputs: at scenario C (endpoint `localhost:4318`, a tls
block with empty cert and key files) the outcome is exactly the two TLS problems;
with the same tls block and an empty endpoint the outcome is the endpoint problem
alone and holds no TLS problem. -/
theorem C4_scenarioC :
    (scenarioC.Logs.Endpoint ≠ "" ∧
      (∃ ps, problems quotePlain scenarioC = .ok ps ∧
        ps.filter isTLSProblem = [errNoKey, errNoCert] ∧
        errNoKey.Error = "tls was configured, but no key file was specified" ∧
        errNoCert.Error = "tls was configured, but no cert file was specified") ∧
      problems quotePlain scenarioC = .ok [errNoKey, errNoCert]) ∧
    (emptyEndpointEmptyTLS.Logs.Endpoint = "" ∧
      ∃ ps, problems quotePlain emptyEndpointEmptyTLS = .ok ps ∧ ps = [errNoEndpoint] ∧
        ps.filter isTLSProblem = [] ∧
        errNoEndpoint.Error = "an endpoint must be specified") :=
  ⟨⟨by decide,
      (C4_both_tls_problems quotePlain scenarioC).1 zeroServerConfig (by decide) rfl rfl rfl,
      by decide⟩,
    ⟨rfl, (C4_both_tls_problems quotePlain emptyEndpointEmptyTLS).2 rfl⟩⟩

theorem isTimestampFormatProblem_specTLS (c : Config) :
    (specTLSKey c).filter isTimestampFormatProblem = [] ∧
      (specTLSCert c).filter isTimestampFormatProblem = [] := by
  unfold specTLSKey specTLSCert
  rcases c.Logs.TLS with _ | tls
  · exact ⟨rfl, rfl⟩
  · constructor <;> simp only <;> split_ifs <;> decide

theorem isTimestampFormatProblem_specEndpointSplit (c : Config) :
    (specEndpointSplit c).filter isTimestampFormatProblem = [] := by
  unfold specEndpointSplit
  rcases SplitHostPort_spec c.Logs.Endpoint with ⟨host, port, hs⟩ | ⟨why, hs⟩
  · rw [hs]
    rfl
  · rw [hs]
    simp [isTimestampFormatProblem, GoError.Error, List.isPrefixOf]

/-- C5, as stated, fails: with an empty endpoint the unknown timestamp format
`iso8601` produces no invalid-timestamp-format problem; the only problem returned
is `an endpoint must be specified`. -/
theorem C5_empty_endpoint_no_format_problem :
    emptyEndpointBadFormat.Logs.Endpoint = "" ∧
      emptyEndpointBadFormat.Logs.TimestampFormat = "iso8601" ∧
      problems quotePlain emptyEndpointBadFormat = .ok [errNoEndpoint] ∧
      [errNoEndpoint].filter isTimestampFormatProblem = [] := by
  decide

theorem quotePlain_injective : Function.Injective quotePlain := by
  intro a b h
  unfold quotePlain at h
  have hd := congrArg String.data h
  simp only [String.data_append] at hd
  have hd' := List.append_cancel_right hd
  have hd'' := List.append_cancel_left hd'
  exact String.ext hd''

/-- The timestamp-format message determines the offending value when the quoting is
injective. -/
theorem Errorf_q_names (quote : String → String) (hq : Function.Injective quote)
    (before after s s' : String)
    (h : (Errorf_q quote before after s').Error = (Errorf_q quote before after s).Error) :
    s' = s := by
  simp only [Errorf_q, errorsNew, GoError.Error] at h
  have hd := congrArg String.data h
  simp only [String.data_append] at hd
  have hd' := List.append_cancel_right hd
  have hd'' := List.append_cancel_left hd'
  exact hq (String.ext hd'')

/-- C5, amended: for every string `s` that is non-empty and not exactly one of
`unix`, `unixnano`, `rfc3339`, every configuration with a non-empty endpoint and
`timestamp_format = s` makes `Validate` return an outcome with exactly one
invalid-timestamp-format problem, whose message is `invalid timestamp_format `,
then `s` quoted, then `, must be one of: unix, unixnano, rfc3339`. The message so
names `s` and the allowed set: it contains the quoted `s` and the text
`unix, unixnano, rfc3339`; it contains `s` verbatim whenever the quoted form does;
and, quoting being injective, no other value gives the same message. For every
configuration with an empty endpoint the outcome holds no invalid-timestamp-format
problem: its only problem is `an endpoint must be specified`. -/
theorem C5_one_timestamp_format_problem (quote : String → String) (c : Config) :
    (∀ s : String, c.Logs.Endpoint ≠ "" → c.Logs.TimestampFormat = s → s ≠ "" →
      s ≠ "unix" → s ≠ "unixnano" → s ≠ "rfc3339" →
      ∃ ps e, problems quote c = .ok ps ∧
        ps.filter isTimestampFormatProblem = [e] ∧
        e.Error = "invalid timestamp_format " ++ quote s
          ++ ", must be one of: unix, unixnano, rfc3339" ∧
        (quote s).data <:+: e.Error.data ∧
        "unix, unixnano, rfc3339".data <:+: e.Error.data ∧
        (s.data <:+: (quote s).data → s.data <:+: e.Error.data) ∧
        (Function.Injective quote → ∀ s' : String,
          (Errorf_q quote "invalid timestamp_format "
            ", must be one of: unix, unixnano, rfc3339" s').Error = e.Error → s' = s)) ∧
    (c.Logs.Endpoint = "" →
      ∃ ps, problems quote c = .ok ps ∧ ps = [errNoEndpoint] ∧
        ps.filter isTimestampFormatProblem = [] ∧
        errNoEndpoint.Error = "an endpoint must be specified") := by
  constructor
  · intro s h hs hne h1 h2 h3
    have hq : (quote s).data <:+: ("invalid timestamp_format " ++ quote s
        ++ ", must be one of: unix, unixnano, rfc3339").data := by
      simp only [String.data_append]
      exact ⟨"invalid timestamp_format ".data,
        ", must be one of: unix, unixnano, rfc3339".data, rfl⟩
    have hset : "unix, unixnano, rfc3339".data <:+: ("invalid timestamp_format " ++ quote s
        ++ ", must be one of: unix, unixnano, rfc3339").data := by
      have hlit : ", must be one of: unix, unixnano, rfc3339".data
          = ", must be one of: ".data ++ "unix, unixnano, rfc3339".data := by
        decide
      rw [String.data_append, hlit, ← List.append_assoc]
      exact ⟨_, [], by rw [List.append_nil]⟩
    refine ⟨specProblems quote c,
      errorString ("invalid timestamp_format " ++ quote s
        ++ ", must be one of: unix, unixnano, rfc3339"),
      problems_nonempty quote c h, ?_, rfl, hq, hset, fun hv => hv.trans hq, ?_⟩
    · unfold specProblems
      rw [List.filter_append, List.filter_append, List.filter_append,
        (isTimestampFormatProblem_specTLS c).1, (isTimestampFormatProblem_specTLS c).2,
        isTimestampFormatProblem_specEndpointSplit]
      have hbad : c.Logs.TimestampFormat ≠ "" ∧
          c.Logs.TimestampFormat ∉ ["unix", "unixnano", "rfc3339"] := by
        rw [hs]
        simp [hne, h1, h2, h3]
      unfold specTimestampFormat
      rw [if_pos hbad, hs]
      simp [isTimestampFormatProblem, GoError.Error, List.isPrefixOf_iff_prefix,
        List.append_assoc]
    · intro hinj s' hmsg
      exact Errorf_q_names quote hinj _ _ s s' hmsg
  · intro h
    exact ⟨[errNoEndpoint], problems_empty quote c h, rfl, by decide, by decide⟩

/-- C5, amended, at two inputs. At a format that differs from an accepted one in
case only, endpoint `localhost:4318` with timestamp format `RFC3339`, the outcome is
exactly the one problem, whose message contains `RFC3339` verbatim and the allowed
set, and which no other format would produce. With the format `iso8601` and an empty
endpoint the outcome is the endpoint problem alone. -/
theorem C5_witness :
    (upperCaseFormat.Logs.Endpoint ≠ "" ∧
      (∃ ps e, problems quotePlain upperCaseFormat = .ok ps ∧
        ps.filter isTimestampFormatProblem = [e] ∧
        e.Error = "invalid timestamp_format " ++ quotePlain "RFC3339"
          ++ ", must be one of: unix, unixnano, rfc3339" ∧
        "RFC3339".data <:+: e.Error.data ∧
        "unix, unixnano, rfc3339".data <:+: e.Error.data ∧
        ∀ s' : String,
          (Errorf_q quotePlain "invalid timestamp_format "
            ", must be one of: unix, unixnano, rfc3339" s').Error = e.Error →
          s' = "RFC3339") ∧
      problems quotePlain upperCaseFormat = .ok [errorString
        "invalid timestamp_format \"RFC3339\", must be one of: unix, unixnano, rfc3339"]) ∧
    (emptyEndpointBadFormat.Logs.Endpoint = "" ∧
      ∃ ps, problems quotePlain emptyEndpointBadFormat = .ok ps ∧ ps = [errNoEndpoint] ∧
        ps.filter isTimestampFormatProblem = [] ∧
        errNoEndpoint.Error = "an endpoint must be specified") := by
  obtain ⟨ps, e, hps, hf, hm, _, hset, hverb, hname⟩ :=
    (C5_one_timestamp_format_problem quotePlain upperCaseFormat).1 "RFC3339"
      (by decide) rfl (by decide) (by decide) (by decide) (by decide)
  exact ⟨⟨by decide,
      ⟨ps, e, hps, hf, hm, hverb ⟨['"'], ['"'], by decide⟩, hset,
        hname quotePlain_injective⟩,
      by decide⟩,
    ⟨rfl, (C5_one_timestamp_format_problem quotePlain emptyEndpointBadFormat).2 rfl⟩⟩

theorem specCheck_length_le_one (quote : String → String) (c : Config) :
    (specTimestampFormat quote c).length ≤ 1 ∧ (specTLSKey c).length ≤ 1 ∧
      (specTLSCert c).length ≤ 1 ∧ (specEndpointSplit c).length ≤ 1 := by
  refine ⟨?_, ?_, ?_, ?_⟩
  · unfold specTimestampFormat
    split_ifs <;> simp
  · unfold specTLSKey
    rcases c.Logs.TLS with _ | tls <;> simp only <;> (try split_ifs) <;> simp
  · unfold specTLSCert
    rcases c.Logs.TLS with _ | tls <;> simp only <;> (try split_ifs) <;> simp
  · unfold specEndpointSplit
    rcases SplitHostPort_spec c.Logs.Endpoint with ⟨host, port, hs⟩ | ⟨why, hs⟩ <;>
      rw [hs] <;> simp

/-- C6: for every configuration with a non-empty endpoint the ordered problem list
returned by `Validate` is the problems of the timestamp-format check, the TLS key
check, the TLS cert check and the endpoint-split check, in that order, each check
contributing its problem when triggered and at most once; so at most four. -/
theorem C6_ordered_problem_list (quote : String → String) (c : Config)
    (h : c.Logs.Endpoint ≠ "") :
    problems quote c = .ok
        (specTimestampFormat quote c ++ specTLSKey c ++ specTLSCert c ++ specEndpointSplit c) ∧
      (specTimestampFormat quote c).length ≤ 1 ∧ (specTLSKey c).length ≤ 1 ∧
      (specTLSCert c).length ≤ 1 ∧ (specEndpointSplit c).length ≤ 1 ∧
      (specTimestampFormat quote c ++ specTLSKey c ++ specTLSCert c
        ++ specEndpointSplit c).length ≤ 4 := by
  obtain ⟨h1, h2, h3, h4⟩ := specCheck_length_le_one quote c
  refine ⟨problems_nonempty quote c h, h1, h2, h3, h4, ?_⟩
  simp only [List.length_append]
  omega

/-- C6 at scenario D: endpoint `badaddr` with timestamp format `iso8601` and no tls
gives exactly the invalid-timestamp-format problem followed by the endpoint-split
problem. -/
theorem C6_scenarioD :
    scenarioD.Logs.Endpoint ≠ "" ∧
      problems quotePlain scenarioD = .ok
        [errorString
          "invalid timestamp_format \"iso8601\", must be one of: unix, unixnano, rfc3339",
        wrapError
          "failed to split endpoint into 'host:port' pair: address badaddr: missing port in address"
          (addrError "missing port in address" "badaddr")] := by
  refine ⟨by decide, ?_⟩
  rw [(C6_ordered_problem_list quotePlain scenarioD (by decide)).1]
  decide

/-- C7: for every configuration with an empty endpoint, no tls and a timestamp
format that is empty or in the enumeration, `Validate` returns a failure whose
problem list is exactly `an endpoint must be specified`; no other check is
triggered there. -/
theorem C7_empty_endpoint_only (quote : String → String) (c : Config)
    (h : c.Logs.Endpoint = "") (hT : c.Logs.TLS = none)
    (hF : c.Logs.TimestampFormat = "" ∨ c.Logs.TimestampFormat = "unix" ∨
      c.Logs.TimestampFormat = "unixnano" ∨ c.Logs.TimestampFormat = "rfc3339") :
    Validate quote c = .ok (some errNoEndpoint) ∧
      problems quote c = .ok [errNoEndpoint] ∧
      errNoEndpoint.Error = "an endpoint must be specified" ∧
      specTimestampFormat quote c = [] ∧ specTLSKey c = [] ∧ specTLSCert c = [] := by
  have hnil := (specTLS_eq_nil c).mpr (Or.inl hT)
  exact ⟨Validate_empty quote c h, problems_empty quote c h, by decide,
    (specTimestampFormat_eq_nil quote c).mpr hF, hnil.1, hnil.2⟩

/-- C7 at scenario B: empty endpoint, no tls, empty timestamp format. -/
theorem C7_scenarioB :
    scenarioB.Logs.Endpoint = "" ∧ scenarioB.Logs.TLS = none ∧
      scenarioB.Logs.TimestampFormat = "" ∧
      Validate quotePlain scenarioB = .ok (some errNoEndpoint) ∧
      problems quotePlain scenarioB = .ok [errNoEndpoint] ∧
      errNoEndpoint.Error = "an endpoint must be specified" ∧
      specTimestampFormat quotePlain scenarioB = [] ∧ specTLSKey scenarioB = [] ∧
      specTLSCert scenarioB = [] :=
  ⟨rfl, rfl, rfl, C7_empty_endpoint_only quotePlain scenarioB rfl rfl (Or.inl rfl)⟩

/-- C8: whenever the split of a non-empty endpoint fails with an error `u`, the
last problem returned by `Validate` is the endpoint-split problem: it unwraps to
`u`, its message is `failed to split endpoint into 'host:port' pair: ` followed by
the message of `u`, and that message contains the endpoint string verbatim. -/
theorem C8_split_problem_wraps (quote : String → String) (c : Config)
    (host port : String) (u : GoError)
    (h : c.Logs.Endpoint ≠ "")
    (hs : SplitHostPort c.Logs.Endpoint = .ok (host, port, some u)) :
    ∃ ps e, problems quote c = .ok ps ∧ ps.getLast? = some e ∧
      e.Unwrap = some u ∧
      e.Error = "failed to split endpoint into 'host:port' pair: " ++ u.Error ∧
      c.Logs.Endpoint.data <:+: e.Error.data := by
  refine ⟨specProblems quote c,
    wrapError ("failed to split endpoint into 'host:port' pair: " ++ u.Error) u,
    problems_nonempty quote c h, ?_, rfl, rfl, ?_⟩
  · unfold specProblems specEndpointSplit
    rw [hs]
    simp
  · have hu : ∃ why, u = addrError why c.Logs.Endpoint := by
      rcases SplitHostPort_spec c.Logs.Endpoint with ⟨host', port', hs'⟩ | ⟨why, hs'⟩
      · rw [hs] at hs'
        simp at hs'
      · rw [hs] at hs'
        simp only [Except.ok.injEq, Prod.mk.injEq, Option.some.injEq] at hs'
        exact ⟨why, hs'.2.2⟩
    obtain ⟨why, rfl⟩ := hu
    simp only [GoError.Error, ne_eq, h, not_false_eq_true, if_true, String.data_append]
    exact ⟨"failed to split endpoint into 'host:port' pair: ".data ++ "address ".data,
      ": ".data ++ why.data, by simp [List.append_assoc]⟩

/-- C8 at scenario D: the split of `badaddr` fails with `missing port in address`,
and the last problem wraps that error and names `badaddr`. -/
theorem C8_witness :
    scenarioD.Logs.Endpoint ≠ "" ∧
      SplitHostPort scenarioD.Logs.Endpoint
        = .ok ("", "", some (addrError "missing port in address" "badaddr")) ∧
      ∃ ps e, problems quotePlain scenarioD = .ok ps ∧ ps.getLast? = some e ∧
        e.Unwrap = some (addrError "missing port in address" "badaddr") ∧
        e.Error = "failed to split endpoint into 'host:port' pair: "
          ++ (addrError "missing port in address" "badaddr").Error ∧
        scenarioD.Logs.Endpoint.data <:+: e.Error.data :=
  ⟨by decide, by decide,
    C8_split_problem_wraps quotePlain scenarioD "" ""
      (addrError "missing port in address" "badaddr") (by decide) (by decide)⟩

/-- C9: the outcome of `Validate` depends only on the endpoint, the timestamp
format and the tls block (its presence, key file and cert file): two configurations
that agree on those have identical outcomes, whatever their secret, attributes,
timestamp field, separator and remaining tls settings. -/
theorem C9_depends_only_on_checked_fields (quote : String → String) (c₁ c₂ : Config)
    (hE : c₁.Logs.Endpoint = c₂.Logs.Endpoint)
    (hF : c₁.Logs.TimestampFormat = c₂.Logs.TimestampFormat)
    (hT : c₁.Logs.TLS.map (fun t => (t.KeyFile, t.CertFile))
      = c₂.Logs.TLS.map (fun t => (t.KeyFile, t.CertFile))) :
    Validate quote c₁ = Validate quote c₂ ∧ problems quote c₁ = problems quote c₂ := by
  have hV : Validate quote c₁ = Validate quote c₂ := by
    unfold Validate
    rw [hE, hF]
    rcases h1 : c₁.Logs.TLS with _ | t₁ <;> rcases h2 : c₂.Logs.TLS with _ | t₂ <;>
      rw [h1, h2] at hT <;> simp at hT
    all_goals first
      | rfl
      | (simp only [deref, hT.1, hT.2, ne_eq, reduceCtorEq, not_false_eq_true, if_true])
  refine ⟨hV, ?_⟩
  unfold problems
  rw [hV]

/-- C9 at two configurations that differ in secret, attributes, timestamp field,
separator and the unchecked tls settings: the outcomes are identical. -/
theorem C9_witness :
    sameCheckedFieldsLeft ≠ sameCheckedFieldsRight ∧
      Validate quotePlain sameCheckedFieldsLeft = Validate quotePlain sameCheckedFieldsRight ∧
      problems quotePlain sameCheckedFieldsLeft = problems quotePlain sameCheckedFieldsRight :=
  ⟨by decide,
    C9_depends_only_on_checked_fields quotePlain sameCheckedFieldsLeft sameCheckedFieldsRight
      rfl rfl rfl⟩

/-- C10: `Validate` is total: on every configuration it returns an `error` value
(nil or a failure) and never panics, so an absent tls block is never dereferenced;
and the host and port split returns on every string, never indexing or slicing out
of range. -/
theorem C10_validate_total :
    (∀ (quote : String → String) (c : Config), ∃ r, Validate quote c = .ok r) ∧
      (∀ hostport : String, ∃ host port err,
        SplitHostPort hostport = .ok (host, port, err)) := by
  constructor
  · intro quote c
    by_cases h : c.Logs.Endpoint = ""
    · exact ⟨_, Validate_empty quote c h⟩
    · obtain ⟨r, hr, _⟩ := Validate_nonempty quote c h
      exact ⟨r, hr⟩
  · intro hostport
    rcases SplitHostPort_spec hostport with ⟨host, port, hs⟩ | ⟨why, hs⟩
    · exact ⟨host, port, none, hs⟩
    · exact ⟨_, _, _, hs⟩

/-! ## The index functions in terms of the position of a character -/

theorem indexByteLoop_not_mem (c : Char) (l : List Char) (k : Int) (h : c ∉ l) :
    indexByteLoop c l k = -1 := by
  induction l generalizing k with
  | nil => rfl
  | cons x xs ih =>
    unfold indexByteLoop
    rw [if_neg (fun hx => h (by rw [hx]; exact List.mem_cons_self _ _))]
    exact ih (k + 1) (fun hm => h (List.mem_cons_of_mem _ hm))

theorem indexByteLoop_first (c : Char) (u v : List Char) (k : Int) (h : c ∉ u) :
    indexByteLoop c (u ++ c :: v) k = k + u.length := by
  induction u generalizing k with
  | nil => simp [indexByteLoop]
  | cons x xs ih =>
    rw [List.cons_append]
    unfold indexByteLoop
    rw [if_neg (fun hx => h (by rw [hx]; exact List.mem_cons_self _ _))]
    rw [ih (k + 1) (fun hm => h (List.mem_cons_of_mem _ hm))]
    simp only [List.length_cons]
    push_cast
    omega

theorem IndexByteString_not_mem (s : String) (c : Char) (h : c ∉ s.data) :
    IndexByteString s c = -1 :=
  indexByteLoop_not_mem c s.data 0 h

theorem IndexByteString_first (s : String) (c : Char) (u v : List Char)
    (hs : s.data = u ++ c :: v) (h : c ∉ u) :
    IndexByteString s c = u.length := by
  unfold IndexByteString
  rw [hs, indexByteLoop_first c u v 0 h]
  omega

theorem IndexByteString_nonneg_iff (s : String) (c : Char) :
    IndexByteString s c ≥ 0 ↔ c ∈ s.data := by
  constructor
  · intro h
    by_contra hm
    rw [IndexByteString_not_mem s c hm] at h
    omega
  · intro h
    obtain ⟨u, v, hs, hu⟩ := List.eq_append_cons_of_mem h
    rw [IndexByteString_first s c u v hs hu]
    omega

theorem lastIndexByteLoop_not_mem (c : Char) (l : List Char) (n : Nat) (h : c ∉ l) :
    lastIndexByteLoop c l n = -1 := by
  induction n with
  | zero => rfl
  | succ i ih =>
    unfold lastIndexByteLoop
    rw [if_neg, ih]
    intro hx
    exact h (List.getElem?_mem hx)

theorem lastIndexByteLoop_last (c : Char) (a b : List Char) (n : Nat) (h : c ∉ b)
    (h1 : a.length < n) (h2 : n ≤ (a ++ c :: b).length) :
    lastIndexByteLoop c (a ++ c :: b) n = a.length := by
  induction n with
  | zero => omega
  | succ i ih =>
    unfold lastIndexByteLoop
    by_cases hi : i = a.length
    · rw [hi, if_pos]
      rw [List.getElem?_append_right le_rfl]
      simp
    · have hgt : a.length < i := by omega
      rw [if_neg, ih hgt (by omega)]
      intro hx
      rw [List.getElem?_append_right (by omega)] at hx
      have hpos : i - a.length = (i - a.length - 1) + 1 := by omega
      rw [hpos, List.getElem?_cons_succ] at hx
      exact h (List.getElem?_mem hx)

theorem LastIndexByteString_not_mem (s : String) (c : Char) (h : c ∉ s.data) :
    LastIndexByteString s c = -1 :=
  lastIndexByteLoop_not_mem c s.data s.data.length h

theorem LastIndexByteString_last (s : String) (c : Char) (a b : List Char)
    (hs : s.data = a ++ c :: b) (h : c ∉ b) :
    LastIndexByteString s c = a.length := by
  unfold LastIndexByteString
  rw [hs]
  exact lastIndexByteLoop_last c a b _ h (by simp) le_rfl

/-- A list containing `c` splits at the last occurrence of `c`. -/
theorem eq_append_cons_of_mem_last (c : Char) (l : List Char) (h : c ∈ l) :
    ∃ a b, l = a ++ c :: b ∧ c ∉ b := by
  induction l with
  | nil => exact absurd h (List.not_mem_nil c)
  | cons x xs ih =>
    by_cases hx : c ∈ xs
    · obtain ⟨a, b, hab, hb⟩ := ih hx
      exact ⟨x :: a, b, by rw [hab, List.cons_append], hb⟩
    · have hxc : c = x := by
        rcases List.mem_cons.mp h with h' | h'
        · exact h'
        · exact absurd h' hx
      exact ⟨[], xs, by rw [hxc, List.nil_append], hx⟩

/-! ## `net.SplitHostPort` evaluated -/

theorem index_zero (s : String) (x : Char) (xs : List Char) (hs : s.data = x :: xs) :
    index s 0 = .ok x := by
  unfold index
  rw [if_neg (by omega), hs]
  simp

theorem slice_to_end (s : String) (j : Int) (h0 : 0 ≤ j) (h1 : j ≤ len s) :
    slice s j (len s) = .ok ⟨s.data.drop j.toNat⟩ := by
  rw [slice_ok s j (len s) h0 h1 le_rfl]
  have hlen : (len s).toNat - j.toNat = (s.data.drop j.toNat).length := by
    rw [List.length_drop]
    unfold len
    omega
  rw [hlen, List.take_length]

theorem splitHostPortRest_eq (hostport host : String) (i j k : Int)
    (hj0 : 0 ≤ j) (hj : j ≤ len hostport) (hk0 : 0 ≤ k) (hk : k ≤ len hostport)
    (hi0 : 0 ≤ i) (hi : i < len hostport) :
    splitHostPortRest hostport i host j k =
      if '[' ∈ hostport.data.drop j.toNat then
        .ok ("", "", some (addrError "unexpected '[' in address" hostport))
      else if ']' ∈ hostport.data.drop k.toNat then
        .ok ("", "", some (addrError "unexpected ']' in address" hostport))
      else .ok (host, ⟨hostport.data.drop (i + 1).toNat⟩, none) := by
  unfold splitHostPortRest
  rw [slice_to_end _ _ hj0 hj, slice_to_end _ _ hk0 hk,
    slice_to_end _ _ (by omega) (by omega)]
  simp only [IndexByteString_nonneg_iff]

/-- An unbracketed address with exactly one colon splits at that colon. -/
theorem SplitHostPort_plain (s : String) (h p : List Char)
    (hs : s.data = h ++ ':' :: p) (hh : ':' ∉ h) (hp : ':' ∉ p)
    (hl : '[' ∉ s.data) (hr : ']' ∉ s.data) :
    SplitHostPort s = .ok (⟨h⟩, ⟨p⟩, none) := by
  have hi : LastIndexByteString s ':' = h.length := LastIndexByteString_last s ':' h p hs hp
  have hlen : len s = h.length + 1 + p.length := by
    unfold len
    rw [hs]
    simp only [List.length_append, List.length_cons]
    push_cast
    omega
  have hne : s.data ≠ [] := by
    rw [hs]
    simp
  obtain ⟨x, xs, hx⟩ := List.exists_cons_of_ne_nil hne
  have hx0 : x ≠ '[' := by
    intro hx'
    apply hl
    rw [hx, hx']
    exact List.mem_cons_self _ _
  unfold SplitHostPort
  simp only
  rw [hi, if_neg (by omega), index_zero s x xs hx]
  simp only
  rw [if_neg hx0, slice_ok s 0 h.length le_rfl (by omega) (by omega)]
  simp only
  have htake : (s.data.drop (0 : Int).toNat).take ((h.length : Int).toNat - (0 : Int).toNat)
      = h := by
    rw [hs]
    simp
  rw [htake, if_neg, splitHostPortRest_eq s ⟨h⟩ h.length 0 0 le_rfl (by omega) le_rfl
    (by omega) (by omega) (by omega)]
  · have hd0 : s.data.drop (0 : Int).toNat = s.data := by simp
    have hd1 : s.data.drop ((h.length : Int) + 1).toNat = p := by
      have : ((h.length : Int) + 1).toNat = h.length + 1 := by omega
      rw [this, hs]
      simp
    rw [hd0, if_neg hl, if_neg hr, hd1]
  · rw [IndexByteString_nonneg_iff]
    exact hh

/-- A bracketed address `[host]:port` splits into the text between the brackets
and the text after the colon. -/
theorem SplitHostPort_bracketed (s : String) (h p : List Char)
    (hs : s.data = '[' :: h ++ ']' :: ':' :: p)
    (hh1 : '[' ∉ h) (hh2 : ']' ∉ h) (hp0 : ':' ∉ p) (hp1 : '[' ∉ p) (hp2 : ']' ∉ p) :
    SplitHostPort s = .ok (⟨h⟩, ⟨p⟩, none) := by
  have hs1 : s.data = ('[' :: h ++ [']']) ++ ':' :: p := by
    rw [hs]
    simp
  have hs2 : s.data = ('[' :: h) ++ ']' :: (':' :: p) := by
    rw [hs]
  have hi : LastIndexByteString s ':' = (h.length + 2 : Nat) := by
    rw [LastIndexByteString_last s ':' _ p hs1 hp0]
    simp only [List.length_append, List.length_cons, List.length_nil]
  have he : IndexByteString s ']' = (h.length + 1 : Nat) := by
    rw [IndexByteString_first s ']' _ _ hs2]
    · simp
    · simp only [List.mem_cons, not_or]
      exact ⟨by decide, hh2⟩
  have hlen : len s = h.length + 3 + p.length := by
    unfold len
    rw [hs]
    simp only [List.length_append, List.length_cons]
    push_cast
    omega
  unfold SplitHostPort
  simp only
  rw [hi, he, if_neg (by omega), index_zero s '[' (h ++ ']' :: ':' :: p) hs]
  simp only
  rw [if_pos trivial, if_neg (by omega), if_neg (by omega), if_pos (by push_cast; omega),
    slice_ok s 1 _ (by omega) (by push_cast; omega) (by push_cast; omega)]
  simp only
  have htake : (s.data.drop (1 : Int).toNat).take
      (((h.length + 1 : Nat) : Int).toNat - (1 : Int).toNat) = h := by
    rw [hs]
    simp
  rw [htake, splitHostPortRest_eq s ⟨h⟩ _ 1 _ (by omega) (by omega)
    (by push_cast; omega) (by push_cast; omega) (by omega) (by push_cast; omega)]
  have hd1 : s.data.drop (1 : Int).toNat = h ++ ']' :: ':' :: p := by
    rw [hs]
    simp
  have hd2 : s.data.drop (((h.length + 1 : Nat) : Int) + 1).toNat = ':' :: p := by
    have : (((h.length + 1 : Nat) : Int) + 1).toNat = (h.length + 1) + 1 := by omega
    rw [this, hs]
    simp
  have hd3 : s.data.drop (((h.length + 2 : Nat) : Int) + 1).toNat = p := by
    have : (((h.length + 2 : Nat) : Int) + 1).toNat = (h.length + 2) + 1 := by omega
    rw [this, hs]
    simp
  rw [hd1, hd2, hd3, if_neg, if_neg]
  · simp only [List.mem_cons, not_or]
    exact ⟨by decide, hp2⟩
  · simp only [List.mem_append, List.mem_cons, not_or]
    exact ⟨hh1, by decide, by decide, hp1⟩

theorem ok_some_ne_none (a b : String) (e : GoError) (host port : String)
    (h : (Except.ok (a, b, some e) : Except Panic (String × String × Option GoError))
      = .ok (host, port, none)) : False := by
  simp at h

/-- A successful split has one of two shapes: `host:port` with a single colon and
no bracket, or `[host]:port` with the brackets only around the host and no colon
in the port. -/
theorem SplitHostPort_ok_inv (s host port : String)
    (hok : SplitHostPort s = .ok (host, port, none)) :
    (s.data = host.data ++ ':' :: port.data ∧ ':' ∉ host.data ∧ ':' ∉ port.data ∧
        '[' ∉ s.data ∧ ']' ∉ s.data) ∨
      (s.data = '[' :: host.data ++ ']' :: ':' :: port.data ∧ '[' ∉ host.data ∧
        ']' ∉ host.data ∧ ':' ∉ port.data ∧ '[' ∉ port.data ∧ ']' ∉ port.data) := by
  unfold SplitHostPort at hok
  simp only at hok
  by_cases hc : ':' ∈ s.data
  swap
  · rw [LastIndexByteString_not_mem s ':' hc, if_pos (by omega)] at hok
    exact (ok_some_ne_none _ _ _ _ _ hok).elim
  obtain ⟨a, p, hs, hp⟩ := eq_append_cons_of_mem_last ':' s.data hc
  have hlen : len s = a.length + 1 + p.length := by
    unfold len
    rw [hs]
    simp only [List.length_append, List.length_cons]
    push_cast
    omega
  have hne : s.data ≠ [] := by
    rw [hs]
    simp
  obtain ⟨x, xs, hx⟩ := List.exists_cons_of_ne_nil hne
  rw [LastIndexByteString_last s ':' a p hs hp, if_neg (by omega), index_zero s x xs hx] at hok
  simp only at hok
  by_cases hx0 : x = '['
  · rw [if_pos hx0] at hok
    by_cases hb : ']' ∈ s.data
    swap
    · rw [IndexByteString_not_mem s ']' hb, if_pos (by omega)] at hok
      exact (ok_some_ne_none _ _ _ _ _ hok).elim
    obtain ⟨u, v, hs2, hu⟩ := List.eq_append_cons_of_mem hb
    have hlen2 : len s = u.length + 1 + v.length := by
      unfold len
      rw [hs2]
      simp only [List.length_append, List.length_cons]
      push_cast
      omega
    rw [IndexByteString_first s ']' u v hs2 hu, if_neg (by omega)] at hok
    by_cases h1 : (u.length : Int) + 1 = len s
    · rw [if_pos h1] at hok
      exact (ok_some_ne_none _ _ _ _ _ hok).elim
    rw [if_neg h1] at hok
    by_cases h2 : (u.length : Int) + 1 = a.length
    swap
    · rw [if_neg h2] at hok
      obtain ⟨c, hcx, _⟩ := index_ok s ((u.length : Int) + 1) (by omega) (by omega)
      rw [hcx] at hok
      simp only at hok
      split_ifs at hok <;> exact (ok_some_ne_none _ _ _ _ _ hok).elim
    rw [if_pos h2] at hok
    -- the first `]` is right before the last `:`
    have hu1 : u ≠ [] := by
      intro hu0
      rw [hu0, hx, hx0] at hs2
      simp at hs2
    obtain ⟨y, u', hu'⟩ := List.exists_cons_of_ne_nil hu1
    have hy : y = '[' := by
      rw [hu', hx, hx0, List.cons_append] at hs2
      injection hs2 with hhead _
      exact hhead.symm
    have hav : a = u ++ [']'] ∧ ':' :: p = v := by
      have heq : a ++ ':' :: p = (u ++ [']']) ++ v := by
        rw [← hs, hs2]
        simp
      have hl : a.length = (u ++ [']']).length := by
        simp only [List.length_append, List.length_cons, List.length_nil]
        omega
      exact List.append_inj heq hl
    have hshape : s.data = '[' :: u' ++ ']' :: ':' :: p := by
      rw [hs2, hu', hy, ← hav.2]
    have hulen : u.length = u'.length + 1 := by
      rw [hu']
      simp
    have halen : a.length = u'.length + 2 := by
      rw [hav.1, hu']
      simp
    rw [slice_ok s 1 _ (by omega) (by omega) (by omega)] at hok
    simp only at hok
    rw [splitHostPortRest_eq s _ _ 1 _ (by omega) (by omega) (by omega) (by omega)
      (by omega) (by omega)] at hok
    have hd1 : s.data.drop (1 : Int).toNat = u' ++ ']' :: ':' :: p := by
      rw [hshape]
      simp
    have hd2 : s.data.drop ((u.length : Int) + 1).toNat = ':' :: p := by
      have : ((u.length : Int) + 1).toNat = (u'.length + 1) + 1 := by omega
      rw [this, hshape]
      simp
    have hd3 : s.data.drop ((a.length : Int) + 1).toNat = p := by
      have : ((a.length : Int) + 1).toNat = (u'.length + 2) + 1 := by omega
      rw [this, hshape]
      simp
    have htake : (s.data.drop (1 : Int).toNat).take
        ((u.length : Int).toNat - (1 : Int).toNat) = u' := by
      have : (u.length : Int).toNat - (1 : Int).toNat = u'.length := by omega
      rw [this, hd1]
      simp
    rw [htake, hd1, hd2, hd3] at hok
    split_ifs at hok with hA hB
    · exact (ok_some_ne_none _ _ _ _ _ hok).elim
    · exact (ok_some_ne_none _ _ _ _ _ hok).elim
    · simp only [Except.ok.injEq, Prod.mk.injEq, and_true] at hok
      obtain ⟨hh, hpp⟩ := hok
      have hhd : host.data = u' := by rw [← hh]
      have hpd : port.data = p := by rw [← hpp]
      right
      rw [hhd, hpd]
      simp only [List.mem_append, List.mem_cons, not_or] at hA hB
      refine ⟨hshape, hA.1, ?_, hp, hA.2.2.2, hB.2⟩
      intro hm
      apply hu
      rw [hu']
      exact List.mem_cons_of_mem _ hm
  · rw [if_neg hx0, slice_ok s 0 _ le_rfl (by omega) (by omega)] at hok
    simp only at hok
    have htake : (s.data.drop (0 : Int).toNat).take
        ((a.length : Int).toNat - (0 : Int).toNat) = a := by
      rw [hs]
      simp
    rw [htake] at hok
    simp only [IndexByteString_nonneg_iff] at hok
    by_cases ha : ':' ∈ a
    · rw [if_pos ha] at hok
      exact (ok_some_ne_none _ _ _ _ _ hok).elim
    rw [if_neg ha, splitHostPortRest_eq s _ _ 0 0 le_rfl (by omega) le_rfl (by omega)
      (by omega) (by omega)] at hok
    have hd0 : s.data.drop (0 : Int).toNat = s.data := by simp
    have hd1 : s.data.drop ((a.length : Int) + 1).toNat = p := by
      have : ((a.length : Int) + 1).toNat = a.length + 1 := by omega
      rw [this, hs]
      simp
    rw [hd0, hd1] at hok
    split_ifs at hok with hA hB
    · exact (ok_some_ne_none _ _ _ _ _ hok).elim
    · exact (ok_some_ne_none _ _ _ _ _ hok).elim
    · simp only [Except.ok.injEq, Prod.mk.injEq, and_true] at hok
      obtain ⟨hh, hpp⟩ := hok
      have hhd : host.data = a := by rw [← hh]
      have hpd : port.data = p := by rw [← hpp]
      left
      rw [hhd, hpd]
      exact ⟨hs, ha, hp, hA, hB⟩

/-! ## Endpoint-split problems among the returned problems -/

theorem isEndpointSplitProblem_wrap (x : String) (u : GoError) :
    isEndpointSplitProblem
      (wrapError ("failed to split endpoint into 'host:port' pair: " ++ x) u) = true := by
  unfold isEndpointSplitProblem
  simp only [GoError.Error, String.data_append]
  rw [List.isPrefixOf_iff_prefix]
  exact ⟨':' :: ' ' :: x.data, rfl⟩

theorem isEndpointSplitProblem_specProblems (quote : String → String) (c : Config) :
    (specProblems quote c).filter isEndpointSplitProblem = specEndpointSplit c := by
  have h1 : (specTimestampFormat quote c).filter isEndpointSplitProblem = [] := by
    unfold specTimestampFormat
    split_ifs
    · simp [isEndpointSplitProblem, GoError.Error, List.isPrefixOf, String.append_assoc]
    · rfl
  have h2 : (specTLSKey c).filter isEndpointSplitProblem = [] := by
    unfold specTLSKey
    rcases c.Logs.TLS with _ | tls
    · rfl
    · simp only
      split_ifs <;> decide
  have h3 : (specTLSCert c).filter isEndpointSplitProblem = [] := by
    unfold specTLSCert
    rcases c.Logs.TLS with _ | tls
    · rfl
    · simp only
      split_ifs <;> decide
  have h4 : (specEndpointSplit c).filter isEndpointSplitProblem = specEndpointSplit c := by
    unfold specEndpointSplit
    rcases SplitHostPort_spec c.Logs.Endpoint with ⟨host, port, hs⟩ | ⟨why, hs⟩
    · rw [hs]
      rfl
    · rw [hs]
      simp only [List.filter_cons, List.filter_nil, isEndpointSplitProblem_wrap, if_true]
  unfold specProblems
  rw [List.filter_append, List.filter_append, List.filter_append, h1, h2, h3, h4]
  rfl

/-- When the split of a non-empty endpoint does not succeed, `Validate` reports an
endpoint-split problem. -/
theorem split_failure_reported (quote : String → String) (c : Config)
    (hne : c.Logs.Endpoint ≠ "")
    (hfail : ∀ host port, SplitHostPort c.Logs.Endpoint ≠ .ok (host, port, none)) :
    ∃ ps u, problems quote c = .ok ps ∧
      wrapError ("failed to split endpoint into 'host:port' pair: " ++ u.Error) u ∈ ps := by
  rcases SplitHostPort_spec c.Logs.Endpoint with ⟨host, port, hs⟩ | ⟨why, hs⟩
  · exact absurd hs (hfail host port)
  · refine ⟨specProblems quote c, addrError why c.Logs.Endpoint,
      problems_nonempty quote c hne, ?_⟩
    simp [specProblems, specEndpointSplit, hs]

theorem count_colon_eq_one_iff (l : List Char) :
    l.count ':' = 1 ↔ ∃ h p, l = h ++ ':' :: p ∧ ':' ∉ h ∧ ':' ∉ p := by
  constructor
  · intro hc
    have hm : ':' ∈ l := by
      apply List.count_pos_iff.mp
      omega
    obtain ⟨a, b, hab, hb⟩ := eq_append_cons_of_mem_last ':' l hm
    refine ⟨a, b, hab, ?_, hb⟩
    rw [hab, List.count_append, List.count_cons_self, List.count_eq_zero_of_not_mem hb] at hc
    apply List.count_eq_zero.mp
    omega
  · rintro ⟨h, p, hl, hh, hp⟩
    rw [hl, List.count_append, List.count_cons_self, List.count_eq_zero_of_not_mem hh,
      List.count_eq_zero_of_not_mem hp]

/-- C11: for every non-empty endpoint without `[` and `]`, `Validate` reports no
endpoint-split problem if and only if the endpoint contains exactly one `:`; the
split then cuts at that colon, and host and port are whatever stands before and
after it (possibly empty, the port not necessarily a number). -/
theorem C11_unbracketed_needs_one_colon (quote : String → String) (c : Config)
    (hne : c.Logs.Endpoint ≠ "")
    (hl : '[' ∉ c.Logs.Endpoint.data) (hr : ']' ∉ c.Logs.Endpoint.data) :
    ∃ ps, problems quote c = .ok ps ∧
      (ps.filter isEndpointSplitProblem = [] ↔ c.Logs.Endpoint.data.count ':' = 1) ∧
      ((∃ host port, SplitHostPort c.Logs.Endpoint = .ok (host, port, none)) ↔
        c.Logs.Endpoint.data.count ':' = 1) ∧
      (∀ host port, SplitHostPort c.Logs.Endpoint = .ok (host, port, none) →
        c.Logs.Endpoint.data = host.data ++ ':' :: port.data ∧
          ':' ∉ host.data ∧ ':' ∉ port.data) := by
  have hinv : ∀ host port, SplitHostPort c.Logs.Endpoint = .ok (host, port, none) →
      c.Logs.Endpoint.data = host.data ++ ':' :: port.data ∧
        ':' ∉ host.data ∧ ':' ∉ port.data := by
    intro host port hs
    rcases SplitHostPort_ok_inv _ _ _ hs with ⟨h1, h2, h3, _, _⟩ | ⟨h1, _⟩
    · exact ⟨h1, h2, h3⟩
    · exfalso
      apply hl
      rw [h1]
      exact List.mem_cons_self _ _
  have hiff : (∃ host port, SplitHostPort c.Logs.Endpoint = .ok (host, port, none)) ↔
      c.Logs.Endpoint.data.count ':' = 1 := by
    rw [count_colon_eq_one_iff]
    constructor
    · rintro ⟨host, port, hs⟩
      obtain ⟨h1, h2, h3⟩ := hinv host port hs
      exact ⟨host.data, port.data, h1, h2, h3⟩
    · rintro ⟨h, p, h1, h2, h3⟩
      exact ⟨⟨h⟩, ⟨p⟩, SplitHostPort_plain _ h p h1 h2 h3 hl hr⟩
  refine ⟨specProblems quote c, problems_nonempty quote c hne, ?_, hiff, hinv⟩
  rw [isEndpointSplitProblem_specProblems, specEndpointSplit_eq_nil, hiff]

/-- C11 on the listed endpoints: `host:abc` has one colon and passes, as do
`localhost:4318`, `:4318` and `host:`; `badaddr` (no colon) and `::1:9000` (three
colons) fail to split. -/
theorem C11_examples :
    (withEndpoint "host:abc").Logs.Endpoint ≠ "" ∧
      (∃ ps, problems quotePlain (withEndpoint "host:abc") = .ok ps ∧
        (ps.filter isEndpointSplitProblem = [] ↔
          (withEndpoint "host:abc").Logs.Endpoint.data.count ':' = 1) ∧
        ((∃ host port, SplitHostPort (withEndpoint "host:abc").Logs.Endpoint
            = .ok (host, port, none)) ↔
          (withEndpoint "host:abc").Logs.Endpoint.data.count ':' = 1) ∧
        (∀ host port, SplitHostPort (withEndpoint "host:abc").Logs.Endpoint
            = .ok (host, port, none) →
          (withEndpoint "host:abc").Logs.Endpoint.data = host.data ++ ':' :: port.data ∧
            ':' ∉ host.data ∧ ':' ∉ port.data)) ∧
      problems quotePlain (withEndpoint "host:abc") = .ok [] ∧
      problems quotePlain (withEndpoint "localhost:4318") = .ok [] ∧
      problems quotePlain (withEndpoint ":4318") = .ok [] ∧
      problems quotePlain (withEndpoint "host:") = .ok [] ∧
      SplitHostPort "host:abc" = .ok ("host", "abc", none) ∧
      SplitHostPort ":4318" = .ok ("", "4318", none) ∧
      SplitHostPort "host:" = .ok ("host", "", none) ∧
      problems quotePlain (withEndpoint "badaddr") = .ok [wrapError
        "failed to split endpoint into 'host:port' pair: address badaddr: missing port in address"
        (addrError "missing port in address" "badaddr")] ∧
      problems quotePlain (withEndpoint "::1:9000") = .ok [wrapError
        "failed to split endpoint into 'host:port' pair: address ::1:9000: too many colons in address"
        (addrError "too many colons in address" "::1:9000")] :=
  ⟨by decide,
    C11_unbracketed_needs_one_colon quotePlain (withEndpoint "host:abc")
      (by decide) (by decide) (by decide),
    by decide, by decide, by decide, by decide, by decide, by decide, by decide, by decide,
    by decide⟩

theorem Validate_none_of_checks (quote : String → String) (c : Config)
    (hne : c.Logs.Endpoint ≠ "")
    (hF : c.Logs.TimestampFormat = "" ∨ c.Logs.TimestampFormat = "unix" ∨
      c.Logs.TimestampFormat = "unixnano" ∨ c.Logs.TimestampFormat = "rfc3339")
    (hT : c.Logs.TLS = none)
    (hS : ∃ host port, SplitHostPort c.Logs.Endpoint = .ok (host, port, none)) :
    Validate quote c = .ok none := by
  obtain ⟨r, hr, _, hnil⟩ := Validate_nonempty quote c hne
  have h1 := (specTimestampFormat_eq_nil quote c).mpr hF
  have h2 := (specTLS_eq_nil c).mpr (Or.inl hT)
  have h3 := (specEndpointSplit_eq_nil c).mpr hS
  have : r = none := by
    rw [hnil]
    unfold specProblems
    rw [h1, h2.1, h2.2, h3]
    rfl
  rw [hr, this]

theorem data_ne_nil_of_ne_empty (s : String) (h : s.data ≠ []) : s ≠ "" := by
  intro hs
  apply h
  rw [hs]

/-- C12: a bracketed host literal is accepted: when the endpoint is `[h]:p` with no
bracket in `h` and no colon or bracket in `p` (colons in `h` allowed), tls is absent
and the timestamp format is empty or in the enumeration, `Validate` succeeds and the
split returns `h` and `p`. Conversely an endpoint with a `[` that no later `]`
closes, or with a `]` that is not immediately followed by `:`, gets an
endpoint-split problem. -/
theorem C12_bracketed_host_literals (quote : String → String) (c : Config) :
    (∀ h p : String, c.Logs.Endpoint = "[" ++ h ++ "]:" ++ p →
      '[' ∉ h.data → ']' ∉ h.data → ':' ∉ p.data → '[' ∉ p.data → ']' ∉ p.data →
      c.Logs.TLS = none →
      (c.Logs.TimestampFormat = "" ∨ c.Logs.TimestampFormat = "unix" ∨
        c.Logs.TimestampFormat = "unixnano" ∨ c.Logs.TimestampFormat = "rfc3339") →
      Validate quote c = .ok none ∧ SplitHostPort c.Logs.Endpoint = .ok (h, p, none)) ∧
    (∀ a b : List Char, c.Logs.Endpoint.data = a ++ '[' :: b → ']' ∉ b →
      ∃ ps u, problems quote c = .ok ps ∧
        wrapError ("failed to split endpoint into 'host:port' pair: " ++ u.Error) u ∈ ps) ∧
    (∀ a b : List Char, c.Logs.Endpoint.data = a ++ ']' :: b → b.head? ≠ some ':' →
      ∃ ps u, problems quote c = .ok ps ∧
        wrapError ("failed to split endpoint into 'host:port' pair: " ++ u.Error) u ∈ ps) := by
  refine ⟨?_, ?_, ?_⟩
  · intro h p hE hh1 hh2 hp0 hp1 hp2 hT hF
    have hdata : c.Logs.Endpoint.data = '[' :: h.data ++ ']' :: ':' :: p.data := by
      rw [hE]
      simp only [String.data_append]
      simp
    have hsplit : SplitHostPort c.Logs.Endpoint = .ok (h, p, none) :=
      SplitHostPort_bracketed _ h.data p.data hdata hh1 hh2 hp0 hp1 hp2
    have hne : c.Logs.Endpoint ≠ "" := by
      apply data_ne_nil_of_ne_empty
      rw [hdata]
      simp
    exact ⟨Validate_none_of_checks quote c hne hF hT ⟨h, p, hsplit⟩, hsplit⟩
  · intro a b hab hb
    have hne : c.Logs.Endpoint ≠ "" := by
      apply data_ne_nil_of_ne_empty
      rw [hab]
      simp
    apply split_failure_reported quote c hne
    intro host port hs
    rcases SplitHostPort_ok_inv _ _ _ hs with ⟨_, _, _, hl, _⟩ | ⟨h1, hh1, _, _, hp1, _⟩
    · apply hl
      rw [hab]
      simp
    · rw [hab] at h1
      rcases a with _ | ⟨y, a'⟩
      · rw [List.nil_append] at h1
        injection h1 with _ htail
        apply hb
        rw [htail]
        simp
      · rw [List.cons_append, List.cons_append] at h1
        injection h1 with _ htail
        have hm : '[' ∈ host.data ++ ']' :: ':' :: port.data := by
          rw [← htail]
          simp
        simp only [List.mem_append, List.mem_cons] at hm
        rcases hm with hm | hm | hm | hm
        · exact hh1 hm
        · exact absurd hm (by decide)
        · exact absurd hm (by decide)
        · exact hp1 hm
  · intro a b hab hb
    have hne : c.Logs.Endpoint ≠ "" := by
      apply data_ne_nil_of_ne_empty
      rw [hab]
      simp
    apply split_failure_reported quote c hne
    intro host port hs
    rcases SplitHostPort_ok_inv _ _ _ hs with ⟨_, _, _, _, hr⟩ | ⟨h1, _, hh2, _, _, hp2⟩
    · apply hr
      rw [hab]
      simp
    · rw [hab] at h1
      have h1' : a ++ ']' :: b = ('[' :: host.data) ++ ']' :: ':' :: port.data := by
        rw [h1, List.cons_append]
      rcases List.append_eq_append_iff.mp h1' with ⟨a', ha, hb'⟩ | ⟨c', ha, hb'⟩
      · rcases a' with _ | ⟨z, a''⟩
        · rw [List.nil_append] at hb'
          injection hb' with _ htail
          apply hb
          rw [htail]
          rfl
        · rw [List.cons_append] at hb'
          injection hb' with hz _
          have hm : ']' ∈ '[' :: host.data := by
            rw [ha, ← hz]
            simp
          rcases List.mem_cons.mp hm with hm | hm
          · exact absurd hm (by decide)
          · exact hh2 hm
      · rcases c' with _ | ⟨z, c''⟩
        · rw [List.nil_append] at hb'
          injection hb' with _ htail
          apply hb
          rw [← htail]
          rfl
        · rw [List.cons_append] at hb'
          injection hb' with hz htail
          have hm : ']' ∈ ':' :: port.data := by
            rw [htail]
            simp
          rcases List.mem_cons.mp hm with hm | hm
          · exact absurd hm (by decide)
          · exact hp2 hm

/-- C12 at scenario E and at two malformed endpoints: `[::1]:9000` with timestamp
format `rfc3339` validates and splits into `::1` and `9000`; `[::1:9000` (no
closing bracket) and `[::1]9000` (no colon after the bracket) get an endpoint-split
problem. -/
theorem C12_scenarioE :
    (Validate quotePlain scenarioE = .ok none ∧
      SplitHostPort scenarioE.Logs.Endpoint = .ok ("::1", "9000", none)) ∧
    (∃ ps u, problems quotePlain (withEndpoint "[::1:9000") = .ok ps ∧
      wrapError ("failed to split endpoint into 'host:port' pair: " ++ u.Error) u ∈ ps) ∧
    (∃ ps u, problems quotePlain (withEndpoint "[::1]9000") = .ok ps ∧
      wrapError ("failed to split endpoint into 'host:port' pair: " ++ u.Error) u ∈ ps) ∧
    SplitHostPort "[::1:9000"
      = .ok ("", "", some (addrError "missing ']' in address" "[::1:9000")) ∧
    SplitHostPort "[::1]9000"
      = .ok ("", "", some (addrError "missing port in address" "[::1]9000")) :=
  ⟨(C12_bracketed_host_literals quotePlain scenarioE).1 "::1" "9000" (by decide) (by decide)
      (by decide) (by decide) (by decide) (by decide) (by decide) (by decide),
    (C12_bracketed_host_literals quotePlain (withEndpoint "[::1:9000")).2.1
      [] "::1:9000".data (by decide) (by decide),
    (C12_bracketed_host_literals quotePlain (withEndpoint "[::1]9000")).2.2
      "[::1".data "9000".data (by decide) (by decide),
    by decide, by decide⟩

theorem isTimestampFormatProblem_problems (quote : String → String) (c : Config)
    (ps : List GoError) (hps : problems quote c = .ok ps)
    (hF : specTimestampFormat quote c = []) :
    ps.filter isTimestampFormatProblem = [] := by
  by_cases h : c.Logs.Endpoint = ""
  · rw [problems_empty quote c h] at hps
    injection hps with hps
    rw [← hps]
    decide
  · rw [problems_nonempty quote c h] at hps
    injection hps with hps
    rw [← hps]
    unfold specProblems
    rw [List.filter_append, List.filter_append, List.filter_append, hF,
      (isTimestampFormatProblem_specTLS c).1, (isTimestampFormatProblem_specTLS c).2,
      isTimestampFormatProblem_specEndpointSplit]
    rfl

/-- C13: an empty timestamp format is treated like the default:
`defaultTimestampFormat` is `rfc3339`, a member of the accepted enumeration, and for
every configuration `Validate` returns the same outcome with the timestamp format
set to the empty string as with it set to `defaultTimestampFormat`; neither outcome
holds a timestamp-format problem. -/
theorem C13_empty_format_like_default (quote : String → String) (c : Config) :
    defaultTimestampFormat = "rfc3339" ∧
      defaultTimestampFormat ∈ ["unix", "unixnano", "rfc3339"] ∧
      Validate quote (withTimestampFormat c "")
        = Validate quote (withTimestampFormat c defaultTimestampFormat) ∧
      problems quote (withTimestampFormat c "")
        = problems quote (withTimestampFormat c defaultTimestampFormat) ∧
      (∀ ps, problems quote (withTimestampFormat c "") = .ok ps →
        ps.filter isTimestampFormatProblem = []) ∧
      (∀ ps, problems quote (withTimestampFormat c defaultTimestampFormat) = .ok ps →
        ps.filter isTimestampFormatProblem = []) := by
  have hV : Validate quote (withTimestampFormat c "")
      = Validate quote (withTimestampFormat c defaultTimestampFormat) := by
    unfold Validate withTimestampFormat defaultTimestampFormat
    simp
  refine ⟨rfl, by decide, hV, ?_, ?_, ?_⟩
  · unfold problems
    rw [hV]
  · intro ps hps
    exact isTimestampFormatProblem_problems quote _ ps hps
      ((specTimestampFormat_eq_nil quote _).mpr (Or.inl rfl))
  · intro ps hps
    exact isTimestampFormatProblem_problems quote _ ps hps
      ((specTimestampFormat_eq_nil quote _).mpr (Or.inr (Or.inr (Or.inr rfl))))

/-- C13 at scenario C, whose tls block misses both files: with the empty format
and with `rfc3339` the outcome is the same two TLS problems. -/
theorem C13_witness :
    Validate quotePlain (withTimestampFormat scenarioC "")
        = Validate quotePlain (withTimestampFormat scenarioC defaultTimestampFormat) ∧
      problems quotePlain (withTimestampFormat scenarioC "") = .ok [errNoKey, errNoCert] ∧
      problems quotePlain (withTimestampFormat scenarioC "rfc3339")
        = .ok [errNoKey, errNoCert] :=
  ⟨(C13_empty_format_like_default quotePlain scenarioC).2.2.1, by decide, by decide⟩

/-- The five messages `Validate` can produce are pairwise different, whatever text
stands in the timestamp-format message and after the endpoint-split text. -/
theorem messages_nodup (x y : String) :
    ["an endpoint must be specified",
      "invalid timestamp_format " ++ x,
      "tls was configured, but no key file was specified",
      "tls was configured, but no cert file was specified",
      "failed to split endpoint into 'host:port' pair: " ++ y].Nodup := by
  have h1 : "an endpoint must be specified" ≠ "invalid timestamp_format " ++ x := by
    intro h
    have := congrArg (fun s => s.data.head?) h
    simp at this
  have h2 : "an endpoint must be specified"
      ≠ "failed to split endpoint into 'host:port' pair: " ++ y := by
    intro h
    have := congrArg (fun s => s.data.head?) h
    simp at this
  have h3 : "invalid timestamp_format " ++ x
      ≠ "tls was configured, but no key file was specified" := by
    intro h
    have := congrArg (fun s => s.data.head?) h
    simp at this
  have h4 : "invalid timestamp_format " ++ x
      ≠ "tls was configured, but no cert file was specified" := by
    intro h
    have := congrArg (fun s => s.data.head?) h
    simp at this
  have h5 : "invalid timestamp_format " ++ x
      ≠ "failed to split endpoint into 'host:port' pair: " ++ y := by
    intro h
    have := congrArg (fun s => s.data.head?) h
    simp at this
  have h6 : "tls was configured, but no key file was specified"
      ≠ "failed to split endpoint into 'host:port' pair: " ++ y := by
    intro h
    have := congrArg (fun s => s.data.head?) h
    simp at this
  have h7 : "tls was configured, but no cert file was specified"
      ≠ "failed to split endpoint into 'host:port' pair: " ++ y := by
    intro h
    have := congrArg (fun s => s.data.head?) h
    simp at this
  have h8 : "an endpoint must be specified"
      ≠ "tls was configured, but no key file was specified" := by decide
  have h9 : "an endpoint must be specified"
      ≠ "tls was configured, but no cert file was specified" := by decide
  have h10 : "tls was configured, but no key file was specified"
      ≠ "tls was configured, but no cert file was specified" := by decide
  simp only [List.nodup_cons, List.mem_cons, List.mem_singleton, List.not_mem_nil,
    List.nodup_nil, not_or, or_false, not_false_eq_true, and_true]
  exact ⟨⟨h1, h8, h9, h2⟩, ⟨h3, h4, h5⟩, ⟨h10, h6⟩, h7⟩

/-- The messages of the problems of checks 2 to 4 form a sublist of the messages
of `messages_nodup`. -/
theorem specProblems_messages_sublist (quote : String → String) (c : Config) :
    ∃ x y, ((specProblems quote c).map GoError.Error).Sublist
      ["an endpoint must be specified",
        "invalid timestamp_format " ++ x,
        "tls was configured, but no key file was specified",
        "tls was configured, but no cert file was specified",
        "failed to split endpoint into 'host:port' pair: " ++ y] := by
  have h1 : ((specTimestampFormat quote c).map GoError.Error).Sublist
      ["invalid timestamp_format " ++ (quote c.Logs.TimestampFormat
        ++ ", must be one of: unix, unixnano, rfc3339")] := by
    unfold specTimestampFormat
    split_ifs
    · simp [GoError.Error, String.append_assoc]
    · simp
  have h2 : ((specTLSKey c).map GoError.Error).Sublist
      ["tls was configured, but no key file was specified"] := by
    unfold specTLSKey
    rcases c.Logs.TLS with _ | tls
    · simp
    · simp only
      split_ifs
      · simp [GoError.Error, errNoKey, errorsNew]
      · simp
  have h3 : ((specTLSCert c).map GoError.Error).Sublist
      ["tls was configured, but no cert file was specified"] := by
    unfold specTLSCert
    rcases c.Logs.TLS with _ | tls
    · simp
    · simp only
      split_ifs
      · simp [GoError.Error, errNoCert, errorsNew]
      · simp
  have h4 : ∃ y, ((specEndpointSplit c).map GoError.Error).Sublist
      ["failed to split endpoint into 'host:port' pair: " ++ y] := by
    unfold specEndpointSplit
    rcases SplitHostPort_spec c.Logs.Endpoint with ⟨host, port, hs⟩ | ⟨why, hs⟩
    · rw [hs]
      exact ⟨"", by simp⟩
    · rw [hs]
      exact ⟨(addrError why c.Logs.Endpoint).Error, by simp [GoError.Error]⟩
  obtain ⟨y, h4⟩ := h4
  refine ⟨quote c.Logs.TimestampFormat ++ ", must be one of: unix, unixnano, rfc3339", y, ?_⟩
  unfold specProblems
  rw [List.map_append, List.map_append, List.map_append]
  exact List.Sublist.cons _ (((h1.append h2).append h3).append h4)

/-- C14: every failure outcome of `Validate` is a non-empty collection of pairwise
distinct problems: when the returned error is not nil its problem list has at
least one element and no two elements have the same message; and the
missing-endpoint, invalid-timestamp-format, missing-key, missing-cert and
endpoint-split messages are pairwise different for every timestamp format `s` and
every split error `u`. -/
theorem C14_failure_nonempty_distinct (quote : String → String) (c : Config)
    (r : Option GoError) (h : Validate quote c = .ok r) (hr : r ≠ none) :
    Errors r ≠ [] ∧ ((Errors r).map GoError.Error).Nodup ∧
      ∀ (s : String) (u : GoError),
        [errNoEndpoint.Error,
          (Errorf_q quote "invalid timestamp_format "
            ", must be one of: unix, unixnano, rfc3339" s).Error,
          errNoKey.Error, errNoCert.Error,
          (Errorf_w "failed to split endpoint into 'host:port' pair: " u).Error].Nodup := by
  refine ⟨?_, ?_, ?_⟩
  · by_cases he : c.Logs.Endpoint = ""
    · rw [Validate_empty quote c he] at h
      injection h with h
      rw [← h]
      decide
    · obtain ⟨r', hr', hE, hnil⟩ := Validate_nonempty quote c he
      rw [hr'] at h
      injection h with h
      rw [← h, hE]
      intro hnone
      apply hr
      rw [← h]
      exact hnil.mpr hnone
  · by_cases he : c.Logs.Endpoint = ""
    · rw [Validate_empty quote c he] at h
      injection h with h
      rw [← h]
      decide
    · obtain ⟨r', hr', hE, _⟩ := Validate_nonempty quote c he
      rw [hr'] at h
      injection h with h
      rw [← h, hE]
      obtain ⟨x, y, hsub⟩ := specProblems_messages_sublist quote c
      exact (messages_nodup x y).sublist hsub
  · intro s u
    have := messages_nodup (quote s ++ ", must be one of: unix, unixnano, rfc3339") u.Error
    simpa [GoError.Error, errNoEndpoint, errNoKey, errNoCert, errorsNew, Errorf_q, Errorf_w,
      String.append_assoc] using this

/-- C14 at a configuration that triggers all four checks: the outcome is a failure
with four problems whose messages are pairwise different. -/
theorem C14_witness :
    (∃ r, Validate quotePlain allChecksTriggered = .ok r ∧ r ≠ none ∧
      (Errors r).length = 4 ∧ Errors r ≠ [] ∧ ((Errors r).map GoError.Error).Nodup) ∧
    problems quotePlain allChecksTriggered = .ok
      [errorString "invalid timestamp_format \"iso8601\", must be one of: unix, unixnano, rfc3339",
        errNoKey, errNoCert,
        wrapError
          "failed to split endpoint into 'host:port' pair: address badaddr: missing port in address"
          (addrError "missing port in address" "badaddr")] := by
  have hV : Validate quotePlain allChecksTriggered = .ok (some (multiError
      [errorString "invalid timestamp_format \"iso8601\", must be one of: unix, unixnano, rfc3339",
        errNoKey, errNoCert,
        wrapError
          "failed to split endpoint into 'host:port' pair: address badaddr: missing port in address"
          (addrError "missing port in address" "badaddr")])) := by
    decide
  have hC := C14_failure_nonempty_distinct quotePlain allChecksTriggered _ hV (by simp)
  exact ⟨⟨_, hV, by simp, rfl, hC.1, hC.2.1⟩, by decide⟩

end Cloudflarereceiver
